import Mathlib

/-!
# Verification of the ioBroker samsungtv adapter core

Shallow embedding of the discovery / identity / protocol-selection /
control engine of the `iobroker.samsungtv` adapter, together with proofs
settling the frozen claims about it.

Sources embedded here (all JavaScript):
* `src/unnamed/part_001` — the adapter revision the claims cite
  (configuration loading, discovery aggregation, probing, protocol
  adapters, Tizen pairing, token handling);
* `src/main.js` — an older revision sharing the discovery aggregation and
  URL sanitisation code verbatim;
* `src/admin/index_m.js` — the newest revision, sole home of the audio
  telemetry reconciliation (`resolveAudioStates`).

Modelling conventions:
* JavaScript strings are Lean `String`s; missing/`undefined` string
  fields are the empty string exactly where the source only ever tests
  them for truthiness (`a || b`); fields whose `undefined`-ness is
  tested with `typeof x === 'boolean'`/`'number'` are `Option`s.
* `async` network primitives become explicit environment records whose
  fields give each primitive's outcome; the control flow around them is
  translated statement by statement.
* JS object literals used as lookup tables are finite association lists
  of their own (string) keys.
* Regex literals are translated with JavaScript semantics: inside a
  regex literal `\\` is an escaped literal backslash, so e.g.
  `/\\b1[45]_/` matches the five-character sequence `\b14_`/`\b15_`
  (backslash, `b`, digits, underscore), not a word boundary.
-/

namespace SamsungTv

/-! ## Basic character / string helpers (ASCII fragment of the JS
string primitives used by the adapter) -/

/-- ASCII `toLowerCase` on one character (`String.prototype.toLowerCase`
restricted to the ASCII inputs the adapter handles). -/
def lowerC (c : Char) : Char :=
  if 'A' ≤ c ∧ c ≤ 'Z' then Char.ofNat (c.toNat + 32) else c

/-- ASCII `toUpperCase` on one character. -/
def upperC (c : Char) : Char :=
  if 'a' ≤ c ∧ c ≤ 'z' then Char.ofNat (c.toNat - 32) else c

/-- Whitespace class used by `String.prototype.trim` and `/\s/`
(restricted to the ASCII whitespace characters). -/
def isWsC (c : Char) : Bool :=
  c = ' ' ∨ c = '\t' ∨ c = '\n' ∨ c = '\r'

def toLowerL (s : List Char) : List Char := s.map lowerC

def toUpperL (s : List Char) : List Char := s.map upperC

/-- `String.prototype.trim` on a character list. -/
def trimL (s : List Char) : List Char :=
  ((s.dropWhile isWsC).reverse.dropWhile isWsC).reverse

def toLowerS (s : String) : String := ⟨toLowerL s.data⟩

def toUpperS (s : String) : String := ⟨toUpperL s.data⟩

def trimS (s : String) : String := ⟨trimL s.data⟩

/-- JavaScript `a || b` on strings (`''` is falsy). -/
def jsOr (a b : String) : String := if a = "" then b else a

/-- `s.startsWith(p)`. -/
def startsWithL (p s : List Char) : Bool := p.isPrefixOf s

def startsWithS (p s : String) : Bool := startsWithL p.data s.data

def isDigitC (c : Char) : Bool := '0' ≤ c ∧ c ≤ '9'

def isHexLowerC (c : Char) : Bool := isDigitC c ∨ ('a' ≤ c ∧ c ≤ 'f')

def isHexC (c : Char) : Bool := isHexLowerC c ∨ ('A' ≤ c ∧ c ≤ 'F')

def isUpperAlphaC (c : Char) : Bool := 'A' ≤ c ∧ c ≤ 'Z'

/-! ## `normalizeKeyInput` (src/unnamed/part_001 lines 923–989)

`control.key` vocabulary normalisation: trim; anything upper-casing to a
`KEY_`-prefixed code passes through upper-cased; otherwise the
lower-cased, whitespace-stripped input indexes the object literal `map`
and `map[normalized] || upper` is returned.  Because a plain object
literal inherits from `Object.prototype`, the lookup also hits the
inherited members for the property names `constructor` and `__proto__`
(the only two all-lower-case ones, hence the only ones a lower-cased
`normalized` can reach); those values are truthy non-strings, so for
such inputs the function returns the inherited object rather than the
upper-cased passthrough. -/

/-- The fixed friendly-short-form table (the own keys of the JS object
literal `map` in `normalizeKeyInput`; the numeric keys `0`–`9` are the
property names `"0"`–`"9"`). -/
def keyMap : List (String × String) :=
  [("up", "KEY_UP"), ("arrowup", "KEY_UP"),
   ("down", "KEY_DOWN"), ("arrowdown", "KEY_DOWN"),
   ("left", "KEY_LEFT"), ("arrowleft", "KEY_LEFT"),
   ("right", "KEY_RIGHT"), ("arrowright", "KEY_RIGHT"),
   ("enter", "KEY_ENTER"), ("ok", "KEY_ENTER"),
   ("back", "KEY_RETURN"), ("return", "KEY_RETURN"),
   ("home", "KEY_HOME"), ("source", "KEY_SOURCE"),
   ("menu", "KEY_MENU"), ("info", "KEY_INFO"),
   ("guide", "KEY_GUIDE"), ("exit", "KEY_EXIT"),
   ("volup", "KEY_VOLUP"), ("volumeup", "KEY_VOLUP"),
   ("voldown", "KEY_VOLDOWN"), ("volumedown", "KEY_VOLDOWN"),
   ("mute", "KEY_MUTE"),
   ("chup", "KEY_CHUP"), ("channelup", "KEY_CHUP"),
   ("chdown", "KEY_CHDOWN"), ("channeldown", "KEY_CHDOWN"),
   ("play", "KEY_PLAY"), ("pause", "KEY_PAUSE"), ("stop", "KEY_STOP"),
   ("rewind", "KEY_REWIND"), ("ff", "KEY_FF"), ("fastforward", "KEY_FF"),
   ("record", "KEY_REC"),
   ("red", "KEY_RED"), ("green", "KEY_GREEN"),
   ("yellow", "KEY_YELLOW"), ("blue", "KEY_BLUE"),
   ("0", "KEY_0"), ("1", "KEY_1"), ("2", "KEY_2"), ("3", "KEY_3"),
   ("4", "KEY_4"), ("5", "KEY_5"), ("6", "KEY_6"), ("7", "KEY_7"),
   ("8", "KEY_8"), ("9", "KEY_9")]

/-- `raw.toLowerCase().replace(/\s+/g, '')`: lower-case, then delete all
whitespace. -/
def despaceLower (s : String) : String :=
  ⟨(toLowerL s.data).filter (fun c => ¬ isWsC c)⟩

/-- A JavaScript property read on the object literal `map`: a string
(an own entry), a truthy non-string inherited from `Object.prototype`,
or `undefined`. -/
inductive JsPropValue where
  | str (s : String)
  | inherited (name : String)
  | undef
deriving Repr, DecidableEq

/-- The own property names of `Object.prototype`, all of whose values
(methods, and the `__proto__` accessor result) are truthy
non-strings. -/
def objectProtoProps : List String :=
  ["constructor", "hasOwnProperty", "isPrototypeOf",
   "propertyIsEnumerable", "toLocaleString", "toString", "valueOf",
   "__defineGetter__", "__defineSetter__", "__lookupGetter__",
   "__lookupSetter__", "__proto__"]

/-- `map[k]`: an own entry of the literal if present, else the
prototype-chain hit on `Object.prototype`, else `undefined`. -/
def lookupKeyMap (k : String) : JsPropValue :=
  match (keyMap.find? (fun p => p.1 = k)).map (fun p => p.2) with
  | some v => JsPropValue.str v
  | none =>
    if objectProtoProps.contains k then JsPropValue.inherited k
    else JsPropValue.undef

/-- `normalizeKeyInput(input)` — part_001 lines 923–989.  The final
`return map[normalized] || upper`: an own entry (every table value is a
non-empty string, hence truthy) and an inherited prototype member are
both returned as-is; only `undefined` falls back to `upper`. -/
def normalizeKeyInput (input : String) : JsPropValue :=
  let raw := trimS input
  if raw = "" then JsPropValue.str ""
  else
    let upper := toUpperS raw
    if startsWithS "KEY_" upper then JsPropValue.str upper
    else
      let normalized := despaceLower raw
      match lookupKeyMap normalized with
      | JsPropValue.str k => JsPropValue.str k
      | JsPropValue.inherited n => JsPropValue.inherited n
      | JsPropValue.undef => JsPropValue.str upper

/-! ## Identity normalisation helpers (part_001 lines 74–123, 2116–2121) -/

/-- One `string.replace(/^prefix/i, '')` step: strip `p` (given in lower
case) from the front of `s`, case-insensitively, if present. -/
def stripCiPrefixL (p s : List Char) : List Char :=
  if toLowerL (s.take p.length) = p then s.drop p.length else s

/-- `normalizeId(id)` — strip a leading `uuid:` then a leading
`urn:uuid:` (each case-insensitively), then trim. -/
def normalizeId (id : String) : String :=
  ⟨trimL (stripCiPrefixL "urn:uuid:".data (stripCiPrefixL "uuid:".data id.data))⟩

/-- `normalizeMac(mac)` — trim and lower-case. -/
def normalizeMac (mac : String) : String := toLowerS (trimS mac)

/-- The `^([0-9a-f]{2}:){5}[0-9a-f]{2}$/i` test in `normalizeDeviceId`. -/
def isMacShapeL : List Char → Bool
  | [a, b, ':', c, d, ':', e, f, ':', g, h, ':', i, j, ':', k, l] =>
      [a, b, c, d, e, f, g, h, i, j, k, l].all isHexC
  | _ => false

def isMacShape (s : String) : Bool := isMacShapeL s.data

/-- `normalizeDeviceId(id)` — re-normalise, then canonicalise MAC-shaped
ids to lower case. -/
def normalizeDeviceId (id : String) : String :=
  let norm := normalizeId id
  if isMacShape norm then normalizeMac norm else norm

/-- `^\d{1,3}(\.\d{1,3}){3}$` matcher: `n+1` dot-separated groups of one
to three digits. -/
def ipGroups : Nat → List Char → Bool
  | 0, s =>
    let d := s.takeWhile isDigitC
    if d.length < 1 ∨ 3 < d.length then false
    else (s.dropWhile isDigitC).isEmpty
  | m + 1, s =>
    let d := s.takeWhile isDigitC
    if d.length < 1 ∨ 3 < d.length then false
    else
      match s.dropWhile isDigitC with
      | c :: r => if c = '.' then ipGroups m r else false
      | [] => false

/-- `looksLikeIp(value)` — part_001 lines 2116–2121. -/
def looksLikeIp (v : String) : Bool := ipGroups 3 (trimL v.data)

/-! ## `sanitizeName` (part_001 lines 74–86) -/

/-- Character class `[a-z0-9-_]` (the characters `sanitizeName` keeps). -/
def isNameOkC (c : Char) : Bool :=
  ('a' ≤ c ∧ c ≤ 'z') ∨ isDigitC c ∨ c = '-' ∨ c = '_'

/-- Worker for the `[^a-z0-9-_]+` to `-` global replacement: the flag
records whether we are inside a run of disallowed characters (which has
already emitted its single `'-'`). -/
def squashBadGo : Bool → List Char → List Char
  | _, [] => []
  | inBad, c :: rest =>
    if isNameOkC c then c :: squashBadGo false rest
    else if inBad then squashBadGo true rest
    else '-' :: squashBadGo true rest

/-- The `[^a-z0-9-_]+` to `-` global replacement in `sanitizeName`: each
maximal run of disallowed characters becomes a single `'-'`. -/
def squashBadRuns (s : List Char) : List Char := squashBadGo false s

/-- Worker for the `--+` to `-` global replacement; the flag records
whether we are inside a dash run that already emitted its dash. -/
def collapseDashGo : Bool → List Char → List Char
  | _, [] => []
  | inRun, c :: rest =>
    if c = '-' then
      if inRun then collapseDashGo true rest
      else '-' :: collapseDashGo true rest
    else c :: collapseDashGo false rest

/-- The `--+` to `-` global replacement in `sanitizeName`: collapse each
run of dashes to one dash (a lone dash is unchanged either way). -/
def collapseDashes (s : List Char) : List Char := collapseDashGo false s

/-- `sanitizeName(name)` — part_001 lines 74–86. -/
def sanitizeName (name : String) : String :=
  if name = "" then ""
  else
    ⟨collapseDashes
      ((((squashBadRuns (toLowerL (trimL name.data))).dropWhile
        (· = '-')).reverse.dropWhile (· = '-')).reverse)⟩

/-! ## Decimal rendering of a JS number index (`` `${i}` `` in
`ensureUniqueName`) -/

def digCh : Nat → Char
  | 0 => '0' | 1 => '1' | 2 => '2' | 3 => '3' | 4 => '4'
  | 5 => '5' | 6 => '6' | 7 => '7' | 8 => '8' | _ => '9'

/-- Fuelled base-10 digit expansion (`fuel ≥ n` always suffices, see
`natDigsF_eq`). -/
def natDigsF : Nat → Nat → List Nat
  | 0, n => [n % 10]
  | fuel + 1, n => if n < 10 then [n] else natDigsF fuel (n / 10) ++ [n % 10]

/-- Base-10 digits of `n`, most significant first. -/
def natDigs (n : Nat) : List Nat := natDigsF n n

/-- Decimal string for a natural (the template-literal rendering of the
JS loop counter). -/
def natToDecS (n : Nat) : String := ⟨(natDigs n).map digCh⟩

/-! ## `ensureUniqueName` (part_001 lines 88–98) -/

/-- The candidate `` `${name}-${i}` ``. -/
def sufName (name : String) (i : Nat) : String := name ++ "-" ++ natToDecS i

/-- The `while (existingSet.has(...)) i++` search, with explicit fuel;
the fuel `existingSet.length + 1` used below always suffices (proved in
`findSuffixFrom_spec`). -/
def findSuffixFrom (name : String) (existingSet : List String) :
    Nat → Nat → String
  | i, 0 => sufName name i
  | i, fuel + 1 =>
    if existingSet.contains (sufName name i) then
      findSuffixFrom name existingSet (i + 1) fuel
    else sufName name i

/-- `ensureUniqueName(desired, existingSet, fallbackBase)` — part_001
lines 88–98 (the JS `Set` is modelled as the list of its elements). -/
def ensureUniqueName (desired : String) (existingSet : List String)
    (fallbackBase : String) : String :=
  let name := jsOr desired (jsOr fallbackBase "tv")
  if existingSet.contains name then
    findSuffixFrom name existingSet 2 (existingSet.length + 1)
  else name

/-! ## Configured-device records (part_001 lines 213–262) -/

/-- One raw entry of `adapter.config.devices` (only object entries reach
the body of the loop; string fields default to `''` for absent values,
capability flags keep their `typeof x === 'boolean'` tri-state). -/
structure RawConfigEntry where
  id : String := ""
  uuid : String := ""
  usn : String := ""
  ip : String := ""
  mac : String := ""
  name : String := ""
  friendlyName : String := ""
  model : String := ""
  api : String := ""
  protocol : String := ""
  port : Nat := 0
  src : String := ""
  tokenAuthSupport : Option Bool := none
  remoteAvailable : Option Bool := none
  hjAvailable : Option Bool := none
deriving Repr, DecidableEq

/-- The in-memory configured `Device` record built by
`getConfiguredDevices`. -/
structure Device where
  id : String := ""
  name : String := ""
  displayName : String := ""
  ip : String := ""
  mac : String := ""
  model : String := ""
  api : String := "unknown"
  protocol : String := ""
  port : Nat := 0
  uuid : String := ""
  src : String := ""
  tokenAuthSupport : Option Bool := none
  remoteAvailable : Option Bool := none
  hjAvailable : Option Bool := none
deriving Repr, DecidableEq

/-- `id.slice(0, 6)`. -/
def slice6 (s : String) : String := ⟨s.data.take 6⟩

/-- The stable-id derivation inside the `getConfiguredDevices` loop
(part_001 lines 222–230): uuid-ish fields first, a MAC overrides an
empty or IP-looking id, the IP is the last resort, and the result is
canonicalised by `normalizeDeviceId`. -/
def deriveConfigId (raw : RawConfigEntry) : String :=
  let rawMac := normalizeMac raw.mac
  let id0 := normalizeId (jsOr raw.id (jsOr raw.uuid raw.usn))
  let id1 := if (id0 = "" ∨ looksLikeIp id0) ∧ rawMac ≠ "" then rawMac else id0
  let id2 := if id1 = "" then normalizeId raw.ip else id1
  normalizeDeviceId id2

/-- One iteration of the `getConfiguredDevices` loop body: `none` means
the `continue` for entries without a stable id. -/
def deriveConfigDevice (raw : RawConfigEntry) (existingNames : List String) :
    Option Device :=
  let id := deriveConfigId raw
  if id = "" then none
  else
    let rawName := jsOr raw.name (jsOr raw.friendlyName (jsOr raw.model "tv"))
    let fallback := "tv-" ++ slice6 id
    let safeName := ensureUniqueName (jsOr (sanitizeName rawName) fallback)
        existingNames fallback
    some
      { id := id
        name := safeName
        displayName := rawName
        ip := raw.ip
        mac := normalizeMac raw.mac
        model := raw.model
        api := jsOr raw.api "unknown"
        protocol := raw.protocol
        port := raw.port
        uuid := raw.uuid
        src := jsOr raw.src "config"
        tokenAuthSupport := raw.tokenAuthSupport
        remoteAvailable := raw.remoteAvailable
        hjAvailable := raw.hjAvailable }

/-- The `getConfiguredDevices` loop with its accumulated
`existingNames` set. -/
def getConfiguredDevicesGo :
    List RawConfigEntry → List String → List Device
  | [], _ => []
  | raw :: rest, names =>
    match deriveConfigDevice raw names with
    | none => getConfiguredDevicesGo rest names
    | some d => d :: getConfiguredDevicesGo rest (d.name :: names)

/-- `getConfiguredDevices()` — part_001 lines 213–262 (as a function of
the raw configured list). -/
def getConfiguredDevices (raws : List RawConfigEntry) : List Device :=
  getConfiguredDevicesGo raws []

/-! ## Facts about the decimal rendering and `ensureUniqueName` -/

/-- Decimal value of a digit list, most significant first. -/
def decVal (ds : List Nat) : Nat := ds.foldl (fun a d => 10 * a + d) 0

theorem decVal_append_digit (ds : List Nat) (d : Nat) :
    decVal (ds ++ [d]) = 10 * decVal ds + d := by
  simp [decVal, List.foldl_append]

theorem decVal_natDigsF (fuel n : Nat) (h : n ≤ fuel) :
    decVal (natDigsF fuel n) = n := by
  induction fuel generalizing n with
  | zero =>
    interval_cases n
    simp [natDigsF, decVal]
  | succ fuel ih =>
    by_cases hn : n < 10
    · simp [natDigsF, hn, decVal]
    · have hlt : n / 10 < n := Nat.div_lt_self (by omega) (by omega)
      have : n / 10 ≤ fuel := by omega
      simp only [natDigsF, hn, if_false, decVal_append_digit, ih _ this]
      omega

theorem natDigsF_all_lt (fuel n : Nat) (h : n ≤ fuel) :
    ∀ d ∈ natDigsF fuel n, d < 10 := by
  induction fuel generalizing n with
  | zero =>
    interval_cases n
    simp [natDigsF]
  | succ fuel ih =>
    by_cases hn : n < 10
    · intro d hd
      simp [natDigsF, hn] at hd
      omega
    · have hlt : n / 10 < n := Nat.div_lt_self (by omega) (by omega)
      have hle : n / 10 ≤ fuel := by omega
      intro d hd
      simp only [natDigsF, hn, if_false, List.mem_append,
        List.mem_singleton] at hd
      rcases hd with hd | hd
      · exact ih _ hle d hd
      · subst hd; exact Nat.mod_lt _ (by omega)

theorem digCh_inj {d e : Nat} (hd : d < 10) (he : e < 10)
    (h : digCh d = digCh e) : d = e := by
  interval_cases d <;> interval_cases e <;> simp_all [digCh]

theorem mapDigCh_inj :
    ∀ xs ys : List Nat, (∀ d ∈ xs, d < 10) → (∀ d ∈ ys, d < 10) →
      xs.map digCh = ys.map digCh → xs = ys
  | [], [], _, _, _ => rfl
  | x :: xs, y :: ys, hx, hy, h => by
    simp only [List.map_cons, List.cons.injEq] at h
    have hxy : x = y :=
      digCh_inj (hx x (by simp)) (hy y (by simp)) h.1
    have : xs = ys :=
      mapDigCh_inj xs ys (fun d hd => hx d (by simp [hd]))
        (fun d hd => hy d (by simp [hd])) h.2
    simp [hxy, this]

theorem natToDecS_inj {n m : Nat} (h : natToDecS n = natToDecS m) :
    n = m := by
  have hdata : (natDigs n).map digCh = (natDigs m).map digCh := by
    have := congrArg String.data h
    simpa [natToDecS] using this
  have hds : natDigs n = natDigs m :=
    mapDigCh_inj _ _ (natDigsF_all_lt n n le_rfl)
      (natDigsF_all_lt m m le_rfl) hdata
  have h1 := decVal_natDigsF n n le_rfl
  have h2 := decVal_natDigsF m m le_rfl
  simp only [natDigs] at hds
  rw [← h1, ← h2, hds]

theorem sufName_inj (name : String) : Function.Injective (sufName name) := by
  intro i j h
  apply natToDecS_inj
  have := congrArg String.data h
  simp only [sufName, String.data_append] at this
  have := List.append_cancel_left this
  exact String.ext this

theorem findSuffixFrom_spec (name : String) (set : List String) :
    ∀ fuel i, 2 ≤ i →
      (∀ j, 2 ≤ j → j < i → set.contains (sufName name j) = true) →
      set.length + 3 ≤ i + fuel →
      ∃ k, i ≤ k ∧
        findSuffixFrom name set i fuel = sufName name k ∧
        set.contains (sufName name k) = false ∧
        (∀ j, 2 ≤ j → j < k → set.contains (sufName name j) = true) := by
  intro fuel
  induction fuel with
  | zero =>
    intro i h2 hall hlen
    exfalso
    -- pigeonhole: `sufName name 2 … sufName name (i-1)` are `i - 2`
    -- distinct members of `set`, but `i - 2 > set.length`
    have hsub : ((List.range' 2 (i - 2)).map (sufName name)) ⊆ set := by
      intro x hx
      rcases List.mem_map.mp hx with ⟨j, hj, rfl⟩
      rcases List.mem_range'.mp hj with ⟨o, ho, rfl⟩
      have := hall (2 + 1 * o) (by omega) (by omega)
      exact List.elem_iff.mp this
    have hnd : ((List.range' 2 (i - 2)).map (sufName name)).Nodup :=
      (List.nodup_range' _ _).map (sufName_inj name)
    have := (List.subperm_of_subset hnd hsub).length_le
    simp only [List.length_map, List.length_range'] at this
    omega
  | succ fuel ih =>
    intro i h2 hall hlen
    cases hc : set.contains (sufName name i) with
    | true =>
      rcases ih (i + 1) (by omega)
        (fun j hj2 hji => by
          rcases Nat.lt_or_ge j i with hji' | hji'
          · exact hall j hj2 hji'
          · have : j = i := by omega
            subst this; exact hc)
        (by omega) with ⟨k, hk1, hk2, hk3, hk4⟩
      refine ⟨k, by omega, ?_, hk3, hk4⟩
      simp only [findSuffixFrom]
      rw [if_pos hc]
      exact hk2
    | false =>
      refine ⟨i, le_rfl, ?_, hc, hall⟩
      simp only [findSuffixFrom]
      rw [if_neg (by rw [hc]; exact Bool.false_ne_true)]

/-- Unfolding equation for `ensureUniqueName`. -/
theorem ensureUniqueName_def (desired : String) (set : List String)
    (fb : String) :
    ensureUniqueName desired set fb =
      if set.contains (jsOr desired (jsOr fb "tv")) then
        findSuffixFrom (jsOr desired (jsOr fb "tv")) set 2 (set.length + 1)
      else jsOr desired (jsOr fb "tv") := rfl

/-- The name returned by `ensureUniqueName` is never already in the
set. -/
theorem ensureUniqueName_not_mem (desired : String) (set : List String)
    (fb : String) : set.contains (ensureUniqueName desired set fb) = false := by
  rw [ensureUniqueName_def]
  cases hc : set.contains (jsOr desired (jsOr fb "tv")) with
  | true =>
    rw [if_pos rfl]
    rcases findSuffixFrom_spec (jsOr desired (jsOr fb "tv")) set
      (set.length + 1) 2 le_rfl (by omega) (by omega) with ⟨k, _, h2, h3, _⟩
    rw [h2]; exact h3
  | false =>
    rw [if_neg Bool.false_ne_true]
    exact hc

/-- When the desired name collides, `ensureUniqueName` returns the
candidate with the smallest free numeric suffix `≥ 2`. -/
theorem ensureUniqueName_minimal (desired : String) (set : List String)
    (fb : String) (hc : set.contains (jsOr desired (jsOr fb "tv")) = true) :
    ∃ k, 2 ≤ k ∧
      ensureUniqueName desired set fb = sufName (jsOr desired (jsOr fb "tv")) k ∧
      set.contains (sufName (jsOr desired (jsOr fb "tv")) k) = false ∧
      (∀ j, 2 ≤ j → j < k →
        set.contains (sufName (jsOr desired (jsOr fb "tv")) j) = true) := by
  rcases findSuffixFrom_spec (jsOr desired (jsOr fb "tv")) set
    (set.length + 1) 2 le_rfl (by omega) (by omega) with ⟨k, hk1, hk2, hk3, hk4⟩
  refine ⟨k, hk1, ?_, hk3, hk4⟩
  rw [ensureUniqueName_def, if_pos hc]
  exact hk2

theorem deriveConfigDevice_fresh_name (raw : RawConfigEntry)
    (names : List String) (d : Device)
    (h : deriveConfigDevice raw names = some d) :
    names.contains d.name = false := by
  unfold deriveConfigDevice at h
  by_cases hid : deriveConfigId raw = ""
  · simp [hid] at h
  · simp only [hid, if_false, Option.some.injEq] at h
    subst h
    exact ensureUniqueName_not_mem _ _ _

theorem getConfiguredDevicesGo_nil (names : List String) :
    getConfiguredDevicesGo [] names = [] := rfl

seal deriveConfigDevice in
theorem getConfiguredDevicesGo_cons_none (raw : RawConfigEntry)
    (rest : List RawConfigEntry) (names : List String)
    (h : deriveConfigDevice raw names = none) :
    getConfiguredDevicesGo (raw :: rest) names =
      getConfiguredDevicesGo rest names := by
  simp only [getConfiguredDevicesGo, h]

seal deriveConfigDevice in
theorem getConfiguredDevicesGo_cons_some (raw : RawConfigEntry)
    (rest : List RawConfigEntry) (names : List String) (d : Device)
    (h : deriveConfigDevice raw names = some d) :
    getConfiguredDevicesGo (raw :: rest) names =
      d :: getConfiguredDevicesGo rest (d.name :: names) := by
  simp only [getConfiguredDevicesGo, h]

theorem getConfiguredDevicesGo_names (raws : List RawConfigEntry) :
    ∀ names : List String,
      ((getConfiguredDevicesGo raws names).map (fun d => d.name)).Nodup ∧
      ∀ n ∈ (getConfiguredDevicesGo raws names).map (fun d => d.name),
        names.contains n = false := by
  induction raws with
  | nil => intro names; simp [getConfiguredDevicesGo_nil]
  | cons raw rest ih =>
    intro names
    cases hd : deriveConfigDevice raw names with
    | none =>
      rw [getConfiguredDevicesGo_cons_none raw rest names hd]
      exact ih names
    | some d =>
      rw [getConfiguredDevicesGo_cons_some raw rest names d hd]
      rcases ih (d.name :: names) with ⟨ihnd, ihfresh⟩
      have hfresh := deriveConfigDevice_fresh_name raw names d hd
      constructor
      · simp only [List.map_cons, List.nodup_cons]
        refine ⟨fun hmem => ?_, ihnd⟩
        have := ihfresh d.name hmem
        simp [List.contains_cons] at this
      · intro n hn
        simp only [List.map_cons, List.mem_cons] at hn
        rcases hn with rfl | hn
        · exact hfresh
        · have := ihfresh n hn
          simp only [List.contains_cons, Bool.or_eq_false_iff] at this
          exact this.2

/-- C6: the sanitized names produced by configuration loading are
pairwise distinct. -/
theorem getConfiguredDevices_names_nodup (raws : List RawConfigEntry) :
    ((getConfiguredDevices raws).map (fun d => d.name)).Nodup :=
  (getConfiguredDevicesGo_names raws []).1

/-! ## Claim C8 -/

/-- **C8 counterexample.** The claim's universal upper-cased
passthrough is false of the program: the object literal inherits from
`Object.prototype`, so for the unrecognized inputs `"constructor"` and
(after trimming and lower-casing) `" __Proto__ "` the lookup
`map[normalized]` is a truthy inherited non-string, which
`map[normalized] || upper` returns instead of the upper-cased input. -/
theorem c8_counterexample :
    normalizeKeyInput "constructor" = JsPropValue.inherited "constructor" ∧
    normalizeKeyInput "constructor" ≠ JsPropValue.str "CONSTRUCTOR" ∧
    normalizeKeyInput " __Proto__ " = JsPropValue.inherited "__proto__" := by
  exact ⟨rfl, by decide, rfl⟩

/-- **C8 (amended).** `normalizeKeyInput` maps the friendly short form
`"volup"` to `KEY_VOLUP`; any input whose trimmed form upper-cases to a
`KEY_`-prefixed string passes through upper-cased (`"KEY_enter"` →
`KEY_ENTER`); any unrecognized input whose normalized form is neither a
table key nor an `Object.prototype` property name passes through
upper-cased (`"xyz"` → `XYZ`); but an unrecognized input whose
normalized form is an inherited `Object.prototype` property name
returns the inherited non-string member instead. -/
theorem c8_normalizeKeyInput :
    normalizeKeyInput "volup" = JsPropValue.str "KEY_VOLUP" ∧
    normalizeKeyInput "KEY_enter" = JsPropValue.str "KEY_ENTER" ∧
    normalizeKeyInput "xyz" = JsPropValue.str "XYZ" ∧
    (∀ s : String, trimS s ≠ "" →
      startsWithS "KEY_" (toUpperS (trimS s)) = true →
      normalizeKeyInput s = JsPropValue.str (toUpperS (trimS s))) ∧
    (∀ s : String, trimS s ≠ "" →
      startsWithS "KEY_" (toUpperS (trimS s)) = false →
      lookupKeyMap (despaceLower (trimS s)) = JsPropValue.undef →
      normalizeKeyInput s = JsPropValue.str (toUpperS (trimS s))) ∧
    (∀ s : String, trimS s ≠ "" →
      startsWithS "KEY_" (toUpperS (trimS s)) = false →
      keyMap.find? (fun p => p.1 = despaceLower (trimS s)) = none →
      objectProtoProps.contains (despaceLower (trimS s)) = true →
      normalizeKeyInput s =
        JsPropValue.inherited (despaceLower (trimS s))) := by
  refine ⟨by rfl, by rfl, by rfl, ?_, ?_, ?_⟩
  · intro s h1 h2
    simp only [normalizeKeyInput]
    rw [if_neg h1, if_pos h2]
  · intro s h1 h2 h3
    simp only [normalizeKeyInput]
    rw [if_neg h1, if_neg (by rw [h2]; exact Bool.false_ne_true), h3]
  · intro s h1 h2 h3 h4
    have hlk : lookupKeyMap (despaceLower (trimS s)) =
        JsPropValue.inherited (despaceLower (trimS s)) := by
      unfold lookupKeyMap
      rw [h3]
      dsimp only [Option.map]
      rw [if_pos h4]
    simp only [normalizeKeyInput]
    rw [if_neg h1, if_neg (by rw [h2]; exact Bool.false_ne_true), hlk]

/-- Witness for the three conditional clauses of `c8_normalizeKeyInput`,
at the concrete inputs `" key_mute "` (KEY-prefixed passthrough),
`"hdmi2"` (unrecognized passthrough) and `"Constructor"` (inherited
prototype member). -/
theorem c8_normalizeKeyInput_witness :
    normalizeKeyInput " key_mute " = JsPropValue.str "KEY_MUTE" ∧
    normalizeKeyInput "hdmi2" = JsPropValue.str "HDMI2" ∧
    normalizeKeyInput "Constructor" = JsPropValue.inherited "constructor" := by
  refine ⟨?_, ?_, ?_⟩
  · have h := c8_normalizeKeyInput.2.2.2.1 " key_mute " (by decide) (by decide)
    exact h.trans (by rfl)
  · have h := c8_normalizeKeyInput.2.2.2.2.1 "hdmi2" (by decide) (by decide)
      (by decide)
    exact h.trans (by rfl)
  · have h := c8_normalizeKeyInput.2.2.2.2.2 "Constructor" (by decide)
      (by decide) (by decide) (by decide)
    exact h.trans (by rfl)

/-! ## Claim C6 -/

/-- C6: the sanitized device names produced by configuration loading
contain no duplicates; a desired name that collides with an
already-assigned name is resolved deterministically by appending the
smallest numeric suffix `-2`, `-3`, … not yet taken. -/
theorem c6_unique_names :
    (∀ raws : List RawConfigEntry,
      ((getConfiguredDevices raws).map (fun d => d.name)).Nodup) ∧
    (∀ (desired : String) (existingSet : List String) (fb : String),
      existingSet.contains (ensureUniqueName desired existingSet fb) = false) ∧
    (∀ (desired : String) (existingSet : List String) (fb : String),
      existingSet.contains (jsOr desired (jsOr fb "tv")) = true →
      ∃ k, 2 ≤ k ∧
        ensureUniqueName desired existingSet fb =
          sufName (jsOr desired (jsOr fb "tv")) k ∧
        existingSet.contains (sufName (jsOr desired (jsOr fb "tv")) k) = false ∧
        ∀ j, 2 ≤ j → j < k →
          existingSet.contains (sufName (jsOr desired (jsOr fb "tv")) j) = true) :=
  ⟨getConfiguredDevices_names_nodup, ensureUniqueName_not_mem,
    ensureUniqueName_minimal⟩

/-- Witness for `c6_unique_names` at a concrete collision: with
`["tv", "tv-2"]` taken, the desired name `"tv"` resolves to a fresh
suffixed name. -/
theorem c6_unique_names_witness :
    (["tv", "tv-2"] : List String).contains
      (ensureUniqueName "tv" ["tv", "tv-2"] "") = false ∧
    (∃ k, 2 ≤ k ∧
      ensureUniqueName "tv" ["tv", "tv-2"] "" =
        sufName (jsOr "tv" (jsOr "" "tv")) k ∧
      (["tv", "tv-2"] : List String).contains
        (sufName (jsOr "tv" (jsOr "" "tv")) k) = false ∧
      ∀ j, 2 ≤ j → j < k →
        (["tv", "tv-2"] : List String).contains
          (sufName (jsOr "tv" (jsOr "" "tv")) j) = true) :=
  ⟨c6_unique_names.2.1 "tv" ["tv", "tv-2"] "",
    c6_unique_names.2.2 "tv" ["tv", "tv-2"] "" (by decide)⟩

/-! ## Probe model (part_001 lines 1772–1967)

`probeDevice(ip, seed)` performs a fixed sequence of time-boxed network
calls; the outcome of each call is a field of `ProbeEnv`. -/

/-- A JS primitive that can sit in the `TokenAuthSupport` field (the
source accepts booleans and strings). -/
inductive JsPrim where
  | b (v : Bool)
  | s (v : String)
deriving Repr, DecidableEq

/-- The JSON body of a Tizen `/api/v2/` info response, restricted to the
fields the adapter reads.  `dev*` fields live on `info.device`, `info*`
fields on the top level.  `tokenAuthRaw` is the first defined value of
the `TokenAuthSupport`/`tokenAuthSupport`/`tokenAuthSupported` key chain
(the `??` cascade in `parseTokenAuthSupport`); `remoteAvailableRaw` is
the already-parsed `isSupport.remote_available` boolean
(`parseIsSupport`). -/
structure TizenInfo where
  devName : String := ""
  devModelName : String := ""
  devModel : String := ""
  devId : String := ""
  devUdn : String := ""
  devUuid : String := ""
  devWifiMac : String := ""
  devMac : String := ""
  infoName : String := ""
  infoId : String := ""
  tokenAuthRaw : Option JsPrim := none
  remoteAvailableRaw : Option Bool := none
deriving Repr, DecidableEq

/-- `parseTokenAuthSupport(info)` — part_001 lines 1772–1788. -/
def parseTokenAuthSupport (i : TizenInfo) : Option Bool :=
  match i.tokenAuthRaw with
  | some (.b v) => some v
  | some (.s v) => some (toLowerS v = "true")
  | none => none

/-- The JSON body of an HJ `/ms/1.0/` info response (fields read by
`applyHjInfo`). -/
structure HjInfoR where
  deviceName : String := ""
  modelName : String := ""
  modelField : String := ""
  udn : String := ""
  duid : String := ""
  deviceId : String := ""
deriving Repr, DecidableEq

/-- The parsed UPnP device description returned by
`fetchUpnpDescription` (its `UDN` is already passed through
`normalizeId` there). -/
structure UpnpDesc where
  friendlyName : String := ""
  manufacturer : String := ""
  modelName : String := ""
  udn : String := ""
deriving Repr, DecidableEq

/-- The seed entry handed to `probeDevice` by the discovery
aggregation. -/
structure ProbeSeed where
  ip : String := ""
  source : List String := []
  name : String := ""
  usn : String := ""
  st : String := ""
  location : String := ""
deriving Repr, DecidableEq

/-- Outcomes of the network calls `probeDevice` makes, in source order:
the two Tizen info endpoints, the HJ info endpoint, the UPnP
description fetch, the ARP/neighbor MAC lookup (already normalised,
`""` when unresolved), and the HJ control-port 8000 reachability
check. -/
structure ProbeEnv where
  tizenSecure : Option TizenInfo := none
  tizenInsecure : Option TizenInfo := none
  hjInfo : Option HjInfoR := none
  upnpDesc : Option UpnpDesc := none
  macForIp : String := ""
  hjPort8000 : Bool := false
deriving Repr, DecidableEq

/-- The `result` object `probeDevice` builds (a
`DiscoveredCandidate`). -/
structure Candidate where
  ip : String := ""
  source : List String := []
  name : String := ""
  model : String := ""
  api : String := "unknown"
  protocol : String := ""
  port : Nat := 0
  uuid : String := ""
  id : String := ""
  mac : String := ""
  hjAvailable : Option Bool := none
  tokenAuthSupport : Option Bool := none
  remoteAvailable : Option Bool := none
deriving Repr, DecidableEq

/-- `applyTizenInfo(result, info)` — part_001 lines 1952–1967. -/
def applyTizenInfo (r : Candidate) (i : TizenInfo) : Candidate :=
  { r with
    name := jsOr r.name (jsOr i.devName i.infoName)
    model := jsOr i.devModelName (jsOr i.devModel r.model)
    uuid := jsOr i.devId (jsOr i.devUdn (jsOr i.devUuid r.uuid))
    id := normalizeId
      (jsOr i.devId (jsOr i.devUdn (jsOr i.devUuid (jsOr i.infoId r.id))))
    mac := normalizeMac (jsOr i.devWifiMac (jsOr i.devMac r.mac))
    tokenAuthSupport :=
      match parseTokenAuthSupport i with
      | some v => some v
      | none => r.tokenAuthSupport
    remoteAvailable :=
      match i.remoteAvailableRaw with
      | some v => some v
      | none => r.remoteAvailable }

/-- `applyHjInfo(result, info)` — part_001 lines 1827–1834. -/
def applyHjInfo (r : Candidate) (i : HjInfoR) : Candidate :=
  let r1 :=
    { r with
      name := jsOr r.name i.deviceName
      model := jsOr r.model (jsOr i.modelName i.modelField)
      uuid := jsOr r.uuid (jsOr i.udn (jsOr i.duid i.deviceId)) }
  if r1.id = "" then
    { r1 with id := normalizeId (jsOr i.deviceId (jsOr i.duid i.udn)) }
  else r1

/-! ### `isLikelyHjSeries` (part_001 lines 1808–1825)

The first three regex literals are written with doubled backslashes
(`\\b`, `\\d`), which in a JavaScript regex literal denote a **literal
backslash character** followed by a literal `b`/`d` (and `{2}`
repetition applies to the letter `d`); they are translated with exactly
that meaning. -/

/-- Does the `\\b1[45]_` pattern match at the head: backslash, `b`,
`1`, `4`-or-`5`, `_`. -/
def hjPat1At : List Char → Bool
  | '\\' :: 'b' :: '1' :: d :: '_' :: _ => d = '4' ∨ d = '5'
  | _ => false

/-- Does `\\b[A-Z]{2}\\d{2}[HJ][A-Z]?\\d*` match at the head: backslash,
`b`, two capitals, backslash, `dd`, `H`-or-`J`, an optional capital,
then a backslash (the trailing `d*` needs nothing). -/
def hjPat2At : List Char → Bool
  | '\\' :: 'b' :: a :: b :: '\\' :: 'd' :: 'd' :: h :: rest =>
    isUpperAlphaC a && isUpperAlphaC b && (h = 'H' ∨ h = 'J') &&
      (match rest with
       | '\\' :: _ => true
       | c :: '\\' :: _ => isUpperAlphaC c
       | _ => false)
  | _ => false

/-- Does `\\b(?:UE|GQ|QE)\\d{2}J` match at the head: backslash, `b`,
`UE`/`GQ`/`QE`, backslash, `dd`, `J`. -/
def hjPat3At : List Char → Bool
  | '\\' :: 'b' :: x :: y :: '\\' :: 'd' :: 'd' :: 'J' :: _ =>
    (x = 'U' ∧ y = 'E') ∨ (x = 'G' ∧ y = 'Q') ∨ (x = 'Q' ∧ y = 'E')
  | _ => false

/-- `regex.test(s)`: does `p` accept at some position of `s`? -/
def scanAny (p : List Char → Bool) : List Char → Bool
  | [] => p []
  | c :: rest => p (c :: rest) || scanAny p rest

/-- `s.includes(sub)`. -/
def includesS (s sub : String) : Bool :=
  scanAny (startsWithL sub.data) s.data

/-- The model/uuid heuristic, as a function of the two fields it
reads. -/
def isLikelyHjSeriesMU (model uuid : String) : Bool :=
  let modelName := toUpperS model
  let code := toUpperS uuid
  let combined := modelName ++ " " ++ code
  scanAny hjPat1At combined.data ||
  scanAny hjPat2At modelName.data ||
  scanAny hjPat3At modelName.data ||
  includesS modelName "JU" || includesS modelName "JS"

/-- `isLikelyHjSeries(result)` — part_001 lines 1808–1825. -/
def isLikelyHjSeries (r : Candidate) : Bool :=
  isLikelyHjSeriesMU r.model r.uuid

/-- The UPnP-description backfill step (part_001 lines 1881–1895):
only still-empty fields are filled. -/
def applyUpnpDesc (r : Candidate) (d : UpnpDesc) : Candidate :=
  { r with
    model := if r.model = "" then d.modelName else r.model
    name := if r.name = "" then d.friendlyName else r.name
    uuid := if r.uuid = "" ∧ d.udn ≠ "" then d.udn else r.uuid }

/-- The MAC enrichment step (part_001 lines 1905–1911): record the
resolved MAC, and replace an empty or IP-looking id with it. -/
def probeMacStep (mac : String) (r : Candidate) : Candidate :=
  let r1 := if mac ≠ "" then { r with mac := mac } else r
  if mac ≠ "" ∧ (r1.id = "" ∨ looksLikeIp r1.id = true) then
    { r1 with id := mac }
  else r1

/-- The protocol decision block (part_001 lines 1913–1939): run after
all info gathering; `hjPortOpen` is the outcome of the
`checkPort(ip, 8000)` call made when the heuristic fires without a
previous HJ info response. -/
def probeDecide (hjPortOpen : Bool) (r : Candidate) : Candidate :=
  let hjSeries := isLikelyHjSeries r
  if r.api = "unknown" ∨ hjSeries = true then
    let r1 :=
      if r.hjAvailable ≠ some true ∧ hjSeries = true then
        (if hjPortOpen then { r with hjAvailable := some true } else r)
      else r
    if hjSeries = true then
      { r1 with api := "hj", port := 8000, protocol := "ws" }
    else if r1.hjAvailable = some true then
      { r1 with api := "hj", port := 8000, protocol := "ws" }
    else r1
  else r

/-- The information-gathering phase of `probeDevice(ip, seed)`
(part_001 lines 1836–1911): build the result object, query the two
Tizen info endpoints, the HJ info endpoint and the UPnP description,
apply the id/name fallbacks, and run the MAC enrichment step. -/
def probeGather (ip : String) (seed : ProbeSeed) (env : ProbeEnv) :
    Candidate :=
  let r0 : Candidate :=
    { ip := ip, source := seed.source, name := seed.name, model := ""
      api := "unknown", protocol := "", port := 0, uuid := "", id := ""
      mac := "" }
  -- try tizen https (wss, 8002)
  let r1 :=
    match env.tizenSecure with
    | some i =>
      applyTizenInfo { r0 with api := "tizen", protocol := "wss", port := 8002 } i
    | none => r0
  -- try tizen http (ws, 8001) if not found
  let r2 :=
    if r1.api ≠ "tizen" then
      match env.tizenInsecure with
      | some i =>
        applyTizenInfo { r1 with api := "tizen", protocol := "ws", port := 8001 } i
      | none => r1
    else r1
  -- try HJ info (used later for the API decision)
  let r3 :=
    match env.hjInfo with
    | some i => applyHjInfo { r2 with hjAvailable := some true } i
    | none => r2
  -- try UPnP description (only when the seed carried a location URL)
  let r4 :=
    if seed.location ≠ "" then
      match env.upnpDesc with
      | some d => applyUpnpDesc r3 d
      | none => r3
    else r3
  -- id fallback from uuid/usn/st/ip
  let r5 :=
    if r4.id = "" then
      { r4 with id := normalizeId (jsOr r4.uuid (jsOr seed.usn (jsOr seed.st seed.ip))) }
    else r4
  -- name fallback
  let r6 := if r5.name = "" then { r5 with name := "tv-" ++ slice6 r5.id } else r5
  -- MAC resolution and id upgrade
  probeMacStep env.macForIp r6

/-- `probeDevice(ip, seed)` — part_001 lines 1836–1950, with each
network call's outcome taken from `env`; `none` is the probe-failure
return.  The API decision block runs last, then a candidate without an
id is discarded. -/
def probeDevice (ip : String) (seed : ProbeSeed) (env : ProbeEnv) :
    Option Candidate :=
  let r8 := probeDecide env.hjPort8000 (probeGather ip seed env)
  if r8.id ≠ "" then some r8 else none

/-! ## Discovery-cycle device update (part_001 lines 1643–1671) -/

/-- The field merge applied to a matched registry device during a
discovery cycle (`performDiscovery`, `updateKnownDevices` branch). -/
def mergeDiscoveredIntoDevice (m : Device) (info : Candidate) : Device :=
  let macKey := normalizeMac info.mac
  { m with
    ip := if info.ip ≠ "" ∧ m.ip ≠ info.ip then info.ip else m.ip
    mac := if info.mac ≠ "" ∧ m.mac = "" then macKey else m.mac
    model := if info.model ≠ "" ∧ m.model = "" then info.model else m.model
    api := jsOr info.api m.api
    protocol := jsOr info.protocol m.protocol
    port := if info.port ≠ 0 then info.port else m.port
    tokenAuthSupport :=
      match info.tokenAuthSupport with
      | some v => some v
      | none => m.tokenAuthSupport
    remoteAvailable :=
      match info.remoteAvailable with
      | some v => some v
      | none => m.remoteAvailable
    hjAvailable :=
      match info.hjAvailable with
      | some v => some v
      | none => m.hjAvailable }

/-! ## `updateConfigDeviceFromDiscovery` (part_001 lines 279–346) -/

/-- The `isMatch` test for one raw config entry (part_001 lines
297–304); `matchId` is `match.id` (`""` when no matched device was
passed). -/
def configEntryMatches (dev : RawConfigEntry) (info : Candidate)
    (matchId : String) : Bool :=
  let infoId := normalizeDeviceId info.id
  let infoMac := normalizeMac info.mac
  let infoIp := info.ip
  let devId := normalizeDeviceId (normalizeId
    (jsOr dev.id (jsOr dev.uuid (jsOr dev.usn (jsOr dev.ip dev.mac)))))
  let devMac := normalizeMac dev.mac
  let devIp := dev.ip
  (infoId ≠ "" ∧ devId ≠ "" ∧ infoId = devId) ∨
  (infoMac ≠ "" ∧ devMac ≠ "" ∧ infoMac = devMac) ∨
  (infoId = "" ∧ infoMac = "" ∧ infoIp ≠ "" ∧ devIp ≠ "" ∧ infoIp = devIp) ∨
  (matchId ≠ "" ∧ devId ≠ "" ∧ matchId = devId)

/-- The per-entry update of `updateConfigDeviceFromDiscovery` (part_001
lines 309–340): matched entries get their mutable fields refreshed; the
`id` field is never written. -/
def updateConfigEntry (dev : RawConfigEntry) (info : Candidate)
    (matchId : String) : RawConfigEntry :=
  if configEntryMatches dev info matchId then
    { dev with
      ip := if info.ip ≠ "" ∧ dev.ip ≠ info.ip then info.ip else dev.ip
      mac := if info.mac ≠ "" ∧ dev.mac = "" then info.mac else dev.mac
      api := if info.api ≠ "" ∧ dev.api ≠ info.api then info.api else dev.api
      protocol :=
        if info.protocol ≠ "" ∧ dev.protocol ≠ info.protocol then info.protocol
        else dev.protocol
      port := if info.port ≠ 0 ∧ dev.port ≠ info.port then info.port else dev.port
      hjAvailable :=
        match info.hjAvailable with
        | some v => some v
        | none => dev.hjAvailable
      tokenAuthSupport :=
        match info.tokenAuthSupport with
        | some v => some v
        | none => dev.tokenAuthSupport
      remoteAvailable :=
        match info.remoteAvailable with
        | some v => some v
        | none => dev.remoteAvailable }
  else dev

/-! ## Character facts -/

theorem charLe_iff {a b : Char} : (a ≤ b) ↔ a.toNat ≤ b.toNat := Iff.rfl

theorem charEq_iff {a b : Char} : (a = b) ↔ a.toNat = b.toNat :=
  ⟨fun h => by rw [h], fun h => Char.ext (UInt32.ext h)⟩

theorem toNat_ofNat_valid {n : Nat} (h : n < 55296) : (Char.ofNat n).toNat = n := by
  have hv : Nat.isValidChar n := Or.inl h
  simp [Char.ofNat, hv, Char.ofNatAux, Char.toNat, UInt32.ofNat', UInt32.toNat]

theorem lowerC_toNat (c : Char) :
    (lowerC c).toNat =
      if 65 ≤ c.toNat ∧ c.toNat ≤ 90 then c.toNat + 32 else c.toNat := by
  unfold lowerC
  have hA : ('A').toNat = 65 := rfl
  have hZ : ('Z').toNat = 90 := rfl
  by_cases h : 'A' ≤ c ∧ c ≤ 'Z'
  · rw [if_pos h, if_pos]
    · have h2 := charLe_iff.mp h.2
      rw [hZ] at h2
      exact toNat_ofNat_valid (by omega)
    · exact ⟨hA ▸ charLe_iff.mp h.1, hZ ▸ charLe_iff.mp h.2⟩
  · rw [if_neg h, if_neg]
    intro hn
    exact h ⟨charLe_iff.mpr (hA ▸ hn.1), charLe_iff.mpr (hZ ▸ hn.2)⟩

theorem isWsC_iff {c : Char} :
    isWsC c = true ↔
      (c.toNat = 32 ∨ c.toNat = 9 ∨ c.toNat = 10 ∨ c.toNat = 13) := by
  simp only [isWsC, decide_eq_true_eq, charEq_iff]
  rfl

theorem isDigitC_iff {c : Char} :
    isDigitC c = true ↔ (48 ≤ c.toNat ∧ c.toNat ≤ 57) := by
  simp only [isDigitC, decide_eq_true_eq, charLe_iff]
  rfl

theorem isHexC_iff {c : Char} :
    isHexC c = true ↔
      ((48 ≤ c.toNat ∧ c.toNat ≤ 57) ∨ (97 ≤ c.toNat ∧ c.toNat ≤ 102) ∨
        (65 ≤ c.toNat ∧ c.toNat ≤ 70)) := by
  simp only [isHexC, isHexLowerC, isDigitC, Bool.or_eq_true, decide_eq_true_eq,
    charLe_iff]
  constructor
  · rintro ((h | h) | h)
    · exact Or.inl h
    · exact Or.inr (Or.inl h)
    · exact Or.inr (Or.inr h)
  · rintro (h | h | h)
    · exact Or.inl (Or.inl h)
    · exact Or.inl (Or.inr h)
    · exact Or.inr h

theorem hex_not_ws {c : Char} (h : isHexC c = true) : isWsC c = false := by
  rcases isHexC_iff.mp h with h' | h' | h' <;>
    (cases hw : isWsC c
     · rfl
     · rcases isWsC_iff.mp hw with h2 | h2 | h2 | h2 <;> omega)

theorem hex_ne_dot {c : Char} (h : isHexC c = true) : c ≠ '.' := by
  intro he
  rw [he] at h
  exact absurd h (by decide)

theorem hex_not_digit_ne_dot {c : Char} (h : isHexC c = true) : c ≠ '.' :=
  hex_ne_dot h

theorem hex_lowerC_hex {c : Char} (h : isHexC c = true) :
    isHexC (lowerC c) = true := by
  rcases isHexC_iff.mp h with h' | h' | h' <;>
    (apply isHexC_iff.mpr; rw [lowerC_toNat]; split <;> omega)

theorem lowerC_colon : lowerC ':' = ':' := rfl

theorem hex_lowerC_not_ws {c : Char} (h : isHexC c = true) :
    isWsC (lowerC c) = false :=
  hex_not_ws (hex_lowerC_hex h)

/-! ## Facts about MAC-shaped strings -/

theorem macShape_elim {s : List Char} (h : isMacShapeL s = true) :
    ∃ a b c d e f g h2 i j k l,
      s = [a, b, ':', c, d, ':', e, f, ':', g, h2, ':', i, j, ':', k, l] ∧
      ([a, b, c, d, e, f, g, h2, i, j, k, l].all isHexC) = true := by
  unfold isMacShapeL at h
  split at h
  · next a b c d e f g h2 i j k l =>
    exact ⟨a, b, c, d, e, f, g, h2, i, j, k, l, rfl, h⟩
  · exact absurd h (by simp)

theorem dropWhile_eq_self_of_head {p : Char → Bool} {s : List Char}
    (h : ∀ c, s.head? = some c → p c = false) : s.dropWhile p = s := by
  cases s with
  | nil => rfl
  | cons x xs =>
    rw [List.dropWhile_cons, h x rfl]
    simp

theorem trimL_eq_self {s : List Char}
    (hh : ∀ c, s.head? = some c → isWsC c = false)
    (hl : ∀ c, s.getLast? = some c → isWsC c = false) : trimL s = s := by
  unfold trimL
  rw [dropWhile_eq_self_of_head hh,
    dropWhile_eq_self_of_head (by simpa [List.head?_reverse] using hl),
    List.reverse_reverse]

theorem ipGroups_third_colon {n : Nat} {a b : Char} {rest : List Char}
    (_ha : isHexC a = true) (hb : isHexC b = true) :
    ipGroups (n + 1) (a :: b :: ':' :: rest) = false := by
  by_cases da : isDigitC a = true
  · by_cases db : isDigitC b = true
    · have hcolon : isDigitC ':' = false := by decide
      have hcd : ¬((':' : Char) = '.') := by decide
      simp [ipGroups, List.takeWhile_cons, List.dropWhile_cons, da, db,
        hcolon, hcd]
    · have db' : isDigitC b = false := by simpa using db
      have hbd : b ≠ '.' := hex_ne_dot hb
      simp [ipGroups, List.takeWhile_cons, List.dropWhile_cons, da, db', hbd]
  · have da' : isDigitC a = false := by simpa using da
    simp [ipGroups, List.takeWhile_cons, da']

theorem looksLikeIp_of_macShape {s : String} (h : isMacShape s = true) :
    looksLikeIp s = false := by
  rcases macShape_elim h with ⟨a, b, c, d, e, f, g, h2, i, j, k, l, hs, hhex⟩
  simp only [List.all_cons, List.all_nil, Bool.and_eq_true] at hhex
  unfold looksLikeIp
  rw [hs, trimL_eq_self]
  · exact ipGroups_third_colon hhex.1 hhex.2.1
  · intro x hx
    rw [List.head?_cons] at hx
    injection hx with hx
    subst hx
    exact hex_not_ws hhex.1
  · intro x hx
    have hgl : (([a, b, ':', c, d, ':', e, f, ':', g, h2, ':', i, j, ':', k,
        l] : List Char)).getLast? = some l := rfl
    rw [hgl] at hx
    injection hx with hx
    subst hx
    exact hex_not_ws hhex.2.2.2.2.2.2.2.2.2.2.2.1

theorem macShape_trimL_eq {s : List Char} (h : isMacShapeL s = true) :
    trimL s = s := by
  rcases macShape_elim h with ⟨a, b, c, d, e, f, g, h2, i, j, k, l, hs, hhex⟩
  simp only [List.all_cons, List.all_nil, Bool.and_eq_true] at hhex
  subst hs
  apply trimL_eq_self
  · intro x hx
    rw [List.head?_cons] at hx
    injection hx with hx
    subst hx
    exact hex_not_ws hhex.1
  · intro x hx
    have hgl : (([a, b, ':', c, d, ':', e, f, ':', g, h2, ':', i, j, ':', k,
        l] : List Char)).getLast? = some l := rfl
    rw [hgl] at hx
    injection hx with hx
    subst hx
    exact hex_not_ws hhex.2.2.2.2.2.2.2.2.2.2.2.1

/-- `normalizeId` does not change a MAC-shaped string: neither ci-prefix
(`uuid:`, `urn:uuid:`) can match (their third character is not `:`), and
trimming is a no-op. -/
theorem normalizeId_macShape {s : String} (h : isMacShape s = true) :
    normalizeId s = s := by
  rcases macShape_elim h with ⟨a, b, c, d, e, f, g, h2, i, j, k, l, hs, hhex⟩
  have hm : isMacShapeL s.data = true := h
  unfold normalizeId
  have e1 : stripCiPrefixL "uuid:".data s.data = s.data := by
    unfold stripCiPrefixL
    rw [if_neg]
    rw [hs]
    have ht : toLowerL (List.take "uuid:".data.length
        [a, b, ':', c, d, ':', e, f, ':', g, h2, ':', i, j, ':', k, l]) =
        [lowerC a, lowerC b, ':', lowerC c, lowerC d] := rfl
    rw [ht]
    intro hx
    simp only [show "uuid:".data = ['u', 'u', 'i', 'd', ':'] from rfl,
      List.cons.injEq] at hx
    exact absurd hx.2.2.1 (by decide)
  have e2 : stripCiPrefixL "urn:uuid:".data s.data = s.data := by
    unfold stripCiPrefixL
    rw [if_neg]
    rw [hs]
    have ht : toLowerL (List.take "urn:uuid:".data.length
        [a, b, ':', c, d, ':', e, f, ':', g, h2, ':', i, j, ':', k, l]) =
        [lowerC a, lowerC b, ':', lowerC c, lowerC d, ':', lowerC e,
          lowerC f, ':'] := rfl
    rw [ht]
    intro hx
    simp only [show "urn:uuid:".data = ['u', 'r', 'n', ':', 'u', 'u', 'i',
      'd', ':'] from rfl, List.cons.injEq] at hx
    exact absurd hx.2.2.1 (by decide)
  rw [e1, e2, macShape_trimL_eq hm]

/-- `normalizeMac` of a MAC-shaped string is still MAC-shaped (trim is a
no-op and lower-casing preserves hex digits and `:`). -/
theorem normalizeMac_macShape {s : String} (h : isMacShape s = true) :
    isMacShape (normalizeMac s) = true := by
  rcases macShape_elim h with ⟨a, b, c, d, e, f, g, h2, i, j, k, l, hs, hhex⟩
  simp only [List.all_cons, List.all_nil, Bool.and_eq_true] at hhex
  have hm : isMacShapeL s.data = true := h
  unfold normalizeMac toLowerS trimS isMacShape
  simp only
  rw [macShape_trimL_eq hm, hs]
  simp only [toLowerL, List.map_cons, List.map_nil, lowerC_colon]
  unfold isMacShapeL
  simp only [List.all_cons, List.all_nil, Bool.and_eq_true]
  obtain ⟨q1, q2, q3, q4, q5, q6, q7, q8, q9, q10, q11, q12, -⟩ := hhex
  exact ⟨hex_lowerC_hex q1, hex_lowerC_hex q2, hex_lowerC_hex q3,
    hex_lowerC_hex q4, hex_lowerC_hex q5, hex_lowerC_hex q6,
    hex_lowerC_hex q7, hex_lowerC_hex q8, hex_lowerC_hex q9,
    hex_lowerC_hex q10, hex_lowerC_hex q11, hex_lowerC_hex q12, trivial⟩

theorem macShape_ne_empty {s : String} (h : isMacShape s = true) : s ≠ "" := by
  rcases macShape_elim h with ⟨a, b, c, d, e, f, g, h2, i, j, k, l, hs, _⟩
  intro he
  rw [he] at hs
  exact absurd hs (by simp [show ("" : String).data = [] from rfl])

/-- `looksLikeIp` is `false` on anything `normalizeDeviceId` classifies
as a MAC. -/
theorem normalizeDeviceId_macShape_not_ip {s : String}
    (h : isMacShape s = true) :
    normalizeDeviceId s = normalizeMac s ∧
      looksLikeIp (normalizeDeviceId s) = false := by
  have hid : normalizeDeviceId s = normalizeMac s := by
    unfold normalizeDeviceId
    rw [normalizeId_macShape h, if_pos h]
  exact ⟨hid, by
    rw [hid]
    exact looksLikeIp_of_macShape (normalizeMac_macShape h)⟩

theorem looksLikeIp_normalizeDeviceId {s : String}
    (hfix : normalizeId s = s) (hip : looksLikeIp s = false) :
    looksLikeIp (normalizeDeviceId s) = false := by
  unfold normalizeDeviceId
  simp only
  rw [hfix]
  by_cases hm : isMacShape s = true
  · rw [if_pos hm]
    exact looksLikeIp_of_macShape (normalizeMac_macShape hm)
  · rw [if_neg hm]
    exact hip

theorem mergeDiscovered_id (m : Device) (info : Candidate) :
    (mergeDiscoveredIntoDevice m info).id = m.id := rfl

theorem updateConfigEntry_id (dev : RawConfigEntry) (info : Candidate)
    (matchId : String) : (updateConfigEntry dev info matchId).id = dev.id := by
  unfold updateConfigEntry
  split_ifs <;> rfl

theorem probeMacStep_id_keep (mac : String) (r : Candidate)
    (h1 : r.id ≠ "") (h2 : looksLikeIp r.id = false) :
    (probeMacStep mac r).id = r.id := by
  unfold probeMacStep
  dsimp only
  by_cases hm : mac ≠ ""
  · rw [if_pos hm, if_neg]
    intro hcond
    rcases hcond.2 with hc | hc
    · exact h1 hc
    · rw [show ({ r with mac := mac } : Candidate).id = r.id from rfl, h2] at hc
      exact Bool.false_ne_true hc
  · rw [if_neg hm, if_neg]
    intro hcond
    exact hm hcond.1

theorem probeMacStep_id_cases (mac : String) (r : Candidate) :
    (probeMacStep mac r).id = r.id ∨ (probeMacStep mac r).id = mac := by
  unfold probeMacStep
  dsimp only
  split_ifs <;> simp

theorem deriveConfigId_from_mac (raw : RawConfigEntry)
    (hmac : isMacShape (normalizeMac raw.mac) = true)
    (hid : normalizeId (jsOr raw.id (jsOr raw.uuid raw.usn)) = "" ∨
      looksLikeIp (normalizeId (jsOr raw.id (jsOr raw.uuid raw.usn))) = true) :
    looksLikeIp (deriveConfigId raw) = false := by
  have hne := macShape_ne_empty hmac
  unfold deriveConfigId
  dsimp only
  have hcond : (normalizeId (jsOr raw.id (jsOr raw.uuid raw.usn)) = "" ∨
      looksLikeIp (normalizeId (jsOr raw.id (jsOr raw.uuid raw.usn))) = true) ∧
      normalizeMac raw.mac ≠ "" := ⟨hid, hne⟩
  rw [if_pos hcond, if_neg hne]
  exact (normalizeDeviceId_macShape_not_ip hmac).2

theorem deriveConfigId_from_uuid (raw : RawConfigEntry)
    (h1 : normalizeId (jsOr raw.id (jsOr raw.uuid raw.usn)) ≠ "")
    (h2 : looksLikeIp (normalizeId (jsOr raw.id (jsOr raw.uuid raw.usn))) = false)
    (h3 : normalizeId (normalizeId (jsOr raw.id (jsOr raw.uuid raw.usn))) =
      normalizeId (jsOr raw.id (jsOr raw.uuid raw.usn))) :
    looksLikeIp (deriveConfigId raw) = false := by
  unfold deriveConfigId
  dsimp only
  have hnc : ¬((normalizeId (jsOr raw.id (jsOr raw.uuid raw.usn)) = "" ∨
      looksLikeIp (normalizeId (jsOr raw.id (jsOr raw.uuid raw.usn))) = true) ∧
      normalizeMac raw.mac ≠ "") := by
    intro hc
    rcases hc.1 with hc1 | hc1
    · exact h1 hc1
    · rw [h2] at hc1
      exact Bool.false_ne_true hc1
  rw [if_neg hnc, if_neg h1]
  exact looksLikeIp_normalizeDeviceId h3 h2

/-! ## Claim C2 -/

/-- C2: an established non-IP device id is never replaced by a bare IP.
Loading: an id derived from a MAC or from a non-IP uuid candidate is
never IP-shaped.  Discovery matching (`performDiscovery` update,
`updateConfigDeviceFromDiscovery`): the id field is never written.
Probe enrichment: the MAC step keeps a non-empty non-IP id unchanged,
and when it does replace an id it replaces it with the MAC (never an
IP). -/
theorem c2_id_never_downgraded :
    (∀ (m : Device) (info : Candidate),
      (mergeDiscoveredIntoDevice m info).id = m.id) ∧
    (∀ (dev : RawConfigEntry) (info : Candidate) (matchId : String),
      (updateConfigEntry dev info matchId).id = dev.id) ∧
    (∀ (mac : String) (r : Candidate), r.id ≠ "" → looksLikeIp r.id = false →
      (probeMacStep mac r).id = r.id) ∧
    (∀ (mac : String) (r : Candidate),
      (probeMacStep mac r).id = r.id ∨ (probeMacStep mac r).id = mac) ∧
    (∀ raw : RawConfigEntry,
      isMacShape (normalizeMac raw.mac) = true →
      (normalizeId (jsOr raw.id (jsOr raw.uuid raw.usn)) = "" ∨
        looksLikeIp (normalizeId (jsOr raw.id (jsOr raw.uuid raw.usn))) = true) →
      looksLikeIp (deriveConfigId raw) = false) ∧
    (∀ raw : RawConfigEntry,
      normalizeId (jsOr raw.id (jsOr raw.uuid raw.usn)) ≠ "" →
      looksLikeIp (normalizeId (jsOr raw.id (jsOr raw.uuid raw.usn))) = false →
      normalizeId (normalizeId (jsOr raw.id (jsOr raw.uuid raw.usn))) =
        normalizeId (jsOr raw.id (jsOr raw.uuid raw.usn)) →
      looksLikeIp (deriveConfigId raw) = false) :=
  ⟨mergeDiscovered_id, updateConfigEntry_id, probeMacStep_id_keep,
    probeMacStep_id_cases, deriveConfigId_from_mac, deriveConfigId_from_uuid⟩

/-- Witness for `c2_id_never_downgraded` at concrete inputs: a probe
result whose id is the UUID `samsung-tv-01` survives the MAC step, a raw
config entry with an IP id but a real MAC derives a non-IP id, and an
entry with a UUID id derives a non-IP id. -/
theorem c2_id_never_downgraded_witness :
    (probeMacStep "aa:bb:cc:00:11:22"
      { id := "samsung-tv-01", ip := "192.168.1.20" }).id = "samsung-tv-01" ∧
    looksLikeIp (deriveConfigId
      { id := "192.168.1.20", mac := "AA:BB:CC:00:11:22" }) = false ∧
    looksLikeIp (deriveConfigId { uuid := "samsung-tv-01" }) = false :=
  ⟨c2_id_never_downgraded.2.2.1 "aa:bb:cc:00:11:22"
      { id := "samsung-tv-01", ip := "192.168.1.20" } (by decide) (by decide),
    c2_id_never_downgraded.2.2.2.2.1
      { id := "192.168.1.20", mac := "AA:BB:CC:00:11:22" } (by decide)
      (Or.inr (by decide)),
    c2_id_never_downgraded.2.2.2.2.2 { uuid := "samsung-tv-01" } (by decide)
      (by decide) (by decide)⟩

/-! ## Probe decision lemmas (claim C4) -/

theorem applyHjInfo_api (r : Candidate) (i : HjInfoR) :
    (applyHjInfo r i).api = r.api := by
  unfold applyHjInfo
  dsimp only
  split_ifs <;> rfl

theorem applyHjInfo_hjAvailable (r : Candidate) (i : HjInfoR) :
    (applyHjInfo r i).hjAvailable = r.hjAvailable := by
  unfold applyHjInfo
  dsimp only
  split_ifs <;> rfl

theorem probeMacStep_api (mac : String) (r : Candidate) :
    (probeMacStep mac r).api = r.api := by
  unfold probeMacStep
  dsimp only
  split_ifs <;> rfl

theorem probeMacStep_hjAvailable (mac : String) (r : Candidate) :
    (probeMacStep mac r).hjAvailable = r.hjAvailable := by
  unfold probeMacStep
  dsimp only
  split_ifs <;> rfl

theorem applyUpnpDesc_api (r : Candidate) (d : UpnpDesc) :
    (applyUpnpDesc r d).api = r.api := rfl

theorem applyUpnpDesc_hjAvailable (r : Candidate) (d : UpnpDesc) :
    (applyUpnpDesc r d).hjAvailable = r.hjAvailable := rfl

/-- When neither Tizen info endpoint answered and the HJ info endpoint
did, the gathered candidate still has `api = "unknown"` and carries
`hjAvailable = true`. -/
theorem probeGather_unknown (ip : String) (seed : ProbeSeed) (env : ProbeEnv)
    (h1 : env.tizenSecure = none) (h2 : env.tizenInsecure = none)
    (i : HjInfoR) (h3 : env.hjInfo = some i) :
    (probeGather ip seed env).api = "unknown" ∧
    (probeGather ip seed env).hjAvailable = some true := by
  unfold probeGather
  rw [h1, h2, h3]
  dsimp only
  constructor
  · rw [probeMacStep_api]
    cases hud : env.upnpDesc <;> split_ifs <;>
      simp [applyHjInfo_api, applyUpnpDesc_api]
  · rw [probeMacStep_hjAvailable]
    cases hud : env.upnpDesc <;> split_ifs <;>
      simp [applyHjInfo_hjAvailable, applyUpnpDesc_hjAvailable]

theorem probeDecide_model (b : Bool) (r : Candidate) :
    (probeDecide b r).model = r.model := by
  unfold probeDecide
  dsimp only
  split_ifs <;> rfl

theorem probeDecide_uuid (b : Bool) (r : Candidate) :
    (probeDecide b r).uuid = r.uuid := by
  unfold probeDecide
  dsimp only
  split_ifs <;> rfl

/-- The decision block forces `hj`/`ws`/8000 whenever the model/uuid
heuristic fires. -/
theorem probeDecide_hjSeries (b : Bool) (r : Candidate)
    (h : isLikelyHjSeries r = true) :
    (probeDecide b r).api = "hj" ∧ (probeDecide b r).protocol = "ws" ∧
      (probeDecide b r).port = 8000 := by
  unfold probeDecide
  dsimp only
  rw [if_pos (Or.inr h), if_pos h]
  exact ⟨rfl, rfl, rfl⟩

/-- The decision block forces `hj`/`ws`/8000 when no protocol was
classified and the HJ info endpoint was reachable. -/
theorem probeDecide_unknown_hj (b : Bool) (r : Candidate)
    (ha : r.api = "unknown") (hh : r.hjAvailable = some true) :
    (probeDecide b r).api = "hj" ∧ (probeDecide b r).protocol = "ws" ∧
      (probeDecide b r).port = 8000 := by
  unfold probeDecide
  dsimp only
  rw [if_pos (Or.inl ha)]
  have hr1 : ¬(r.hjAvailable ≠ some true ∧ isLikelyHjSeries r = true) := by
    intro hc
    exact hc.1 hh
  rw [if_neg hr1]
  by_cases hs : isLikelyHjSeries r = true
  · rw [if_pos hs]
    exact ⟨rfl, rfl, rfl⟩
  · rw [if_neg hs, if_pos hh]
    exact ⟨rfl, rfl, rfl⟩

seal probeGather probeDecide in
theorem probeDevice_some {ip : String} {seed : ProbeSeed} {env : ProbeEnv}
    {r : Candidate} (h : probeDevice ip seed env = some r) :
    r = probeDecide env.hjPort8000 (probeGather ip seed env) := by
  unfold probeDevice at h
  dsimp only at h
  split at h
  · injection h with h
    exact h.symm
  · exact Option.noConfusion h

/-- `isLikelyHjSeries` only reads `model` and `uuid`, which the decision
block preserves. -/
theorem isLikelyHjSeries_probeDecide (b : Bool) (r : Candidate) :
    isLikelyHjSeries (probeDecide b r) = isLikelyHjSeries r := by
  unfold isLikelyHjSeries
  rw [probeDecide_model, probeDecide_uuid]

/-! ## Claim C4 -/

/-- C4 counterexample: a candidate whose secure Tizen endpoint answered
(api = tizen) and whose HJ info endpoint was also reachable
(`hjAvailable = true`) but whose model does not trip the HJ-series
heuristic keeps `api = "tizen"` — the claim's "or the HJ info endpoint
was reachable" branch does **not** override a Tizen classification. -/
theorem c4_counterexample :
    probeDevice "192.168.1.20" { ip := "192.168.1.20", source := ["ssdp"] }
      { tizenSecure := some { devId := "abc-1", devModelName := "UE55MU7000" },
        hjInfo := some { modelName := "UE55MU7000" } } =
      some { ip := "192.168.1.20", source := ["ssdp"], name := "tv-abc-1",
             model := "UE55MU7000", api := "tizen", protocol := "wss",
             port := 8002, uuid := "abc-1", id := "abc-1", mac := "",
             hjAvailable := some true } ∧
    isLikelyHjSeriesMU "UE55MU7000" "abc-1" = false :=
  ⟨rfl, rfl⟩

/-- C4 (amended): if the model/uuid heuristic classifies the probed
candidate as HJ-series, the classifier outputs `api = "hj"`,
`protocol = "ws"`, `port = 8000` — even when a Tizen endpoint had
answered; if no Tizen endpoint answered (`api` still unknown) and the
HJ info endpoint was reachable, the output is likewise
`hj`/`ws`/8000.  A reachable HJ endpoint alone does not override an
established Tizen classification. -/
theorem c4_probe_api_decision (ip : String) (seed : ProbeSeed)
    (env : ProbeEnv) (r : Candidate) (h : probeDevice ip seed env = some r) :
    (isLikelyHjSeries r = true →
      r.api = "hj" ∧ r.protocol = "ws" ∧ r.port = 8000) ∧
    (env.tizenSecure = none → env.tizenInsecure = none →
      ∀ i, env.hjInfo = some i →
      r.api = "hj" ∧ r.protocol = "ws" ∧ r.port = 8000) := by
  have hr := probeDevice_some h
  constructor
  · intro hs
    rw [hr] at hs ⊢
    rw [isLikelyHjSeries_probeDecide] at hs
    exact probeDecide_hjSeries _ _ hs
  · intro h1 h2 i h3
    rw [hr]
    rcases probeGather_unknown ip seed env h1 h2 i h3 with ⟨ha, hh⟩
    exact probeDecide_unknown_hj _ _ ha hh

/-- Witness for `c4_probe_api_decision`: an HJ-series model
(`UE48JU6400`) probed behind a deceptive Tizen endpoint is forced to
HJ, and a candidate with only an HJ info response is classified HJ. -/
theorem c4_probe_api_decision_witness :
    (probeDevice "192.168.1.21" { ip := "192.168.1.21" }
        { tizenSecure := some { devId := "u1", devModelName := "UE48JU6400" } } =
      some { ip := "192.168.1.21", source := [], name := "tv-u1",
             model := "UE48JU6400", api := "hj", protocol := "ws",
             port := 8000, uuid := "u1", id := "u1", mac := "",
             hjAvailable := none } ∧
      ({ ip := "192.168.1.21", source := [], name := "tv-u1",
         model := "UE48JU6400", api := "hj", protocol := "ws", port := 8000,
         uuid := "u1", id := "u1", mac := "",
         hjAvailable := none } : Candidate).api = "hj") ∧
    (probeDevice "192.168.1.22" { ip := "192.168.1.22" }
        { hjInfo := some { deviceId := "hj-1" } } =
      some { ip := "192.168.1.22", source := [], name := "tv-hj-1",
             model := "", api := "hj", protocol := "ws", port := 8000,
             uuid := "hj-1", id := "hj-1", mac := "",
             hjAvailable := some true } ∧
      ({ ip := "192.168.1.22", source := [], name := "tv-hj-1", model := "",
         api := "hj", protocol := "ws", port := 8000, uuid := "hj-1",
         id := "hj-1", mac := "",
         hjAvailable := some true } : Candidate).api = "hj") := by
  constructor
  · refine ⟨rfl, ?_⟩
    have h := c4_probe_api_decision "192.168.1.21" { ip := "192.168.1.21" }
      { tizenSecure := some { devId := "u1", devModelName := "UE48JU6400" } }
      { ip := "192.168.1.21", source := [], name := "tv-u1",
        model := "UE48JU6400", api := "hj", protocol := "ws", port := 8000,
        uuid := "u1", id := "u1", mac := "", hjAvailable := none } rfl
    exact (h.1 (by rfl)).1
  · refine ⟨rfl, ?_⟩
    have h := c4_probe_api_decision "192.168.1.22" { ip := "192.168.1.22" }
      { hjInfo := some { deviceId := "hj-1" } }
      { ip := "192.168.1.22", source := [], name := "tv-hj-1", model := "",
        api := "hj", protocol := "ws", port := 8000, uuid := "hj-1",
        id := "hj-1", mac := "", hjAvailable := some true } rfl
    exact (h.2 rfl rfl { deviceId := "hj-1" } rfl).1

/-! ## Discovery aggregation (part_001 lines 1626–1634; identical in
src/main.js lines 894–900) -/

/-- A raw discovery record: SSDP results carry
`ip/usn/location/st/server/source`, mDNS results carry
`ip/name/source/mdns`; `none` marks a property that is absent from the
JS object. -/
structure DiscEntry where
  ip : String := ""
  source : List String := []
  usn : Option String := none
  location : Option String := none
  st : Option String := none
  server : Option String := none
  name : Option String := none
  mdns : Option String := none
deriving Repr, DecidableEq

/-- `Array.from(new Set(a ++ b))`-style first-occurrence
deduplication. -/
def dedupFirstGo (seen : List String) : List String → List String
  | [] => []
  | x :: xs =>
    if seen.contains x then dedupFirstGo seen xs
    else x :: dedupFirstGo (x :: seen) xs

def dedupFirst (l : List String) : List String := dedupFirstGo [] l

/-- The JS object spread `{ ...existing, ...entry }`: every property
present on `entry` overrides `existing`; `ip` and `source` are present
on every record (including the `{ ip, source: [] }` default), so the
entry's values win. -/
def spreadMerge (existing e : DiscEntry) : DiscEntry :=
  { ip := e.ip
    source := e.source
    usn := e.usn.orElse (fun _ => existing.usn)
    location := e.location.orElse (fun _ => existing.location)
    st := e.st.orElse (fun _ => existing.st)
    server := e.server.orElse (fun _ => existing.server)
    name := e.name.orElse (fun _ => existing.name)
    mdns := e.mdns.orElse (fun _ => existing.mdns) }

def findByIp (m : List DiscEntry) (ip : String) : Option DiscEntry :=
  m.find? (fun x => x.ip = ip)

/-- `byIp.set(ip, v)` on an insertion-ordered map. -/
def setByIp (m : List DiscEntry) (ip : String) (v : DiscEntry) :
    List DiscEntry :=
  if (findByIp m ip).isSome then m.map (fun x => if x.ip = ip then v else x)
  else m ++ [v]

/-- One iteration of the aggregation loop (part_001 lines 1627–1634):
fetch/merge/store by IP; the `source` union is computed into
`existing.source`, and then the final `{ ...existing, ...entry }` spread
overwrites it with the entry's own `source`. -/
def aggStep (m : List DiscEntry) (e : DiscEntry) : List DiscEntry :=
  if e.ip = "" then m
  else
    let existing := (findByIp m e.ip).getD { ip := e.ip, source := [] }
    let existing1 :=
      { existing with source := dedupFirst (existing.source ++ e.source) }
    setByIp m e.ip (spreadMerge existing1 e)

/-- The `byIp` aggregation over the concatenated SSDP-then-mDNS raw
records. -/
def aggregateByIp (entries : List DiscEntry) : List DiscEntry :=
  entries.foldl aggStep []

/-! ## Claim C3 -/

/-- C3 (code bug): two raw records for the same IP, one from SSDP and
one from mDNS, aggregate into exactly one candidate — but its `source`
is `["mdns"]` (the later record's own tag), not the union: the union
computed into `existing.source` is immediately clobbered by the
`{ ...existing, ...entry }` spread, whose `entry.source` wins.  The
second conjunct shows the union the loop computes and then discards. -/
theorem c3_source_union_clobbered :
    aggregateByIp
      [{ ip := "192.168.1.20", source := ["ssdp"], usn := some "uuid:abc-1",
         location := some "http://192.168.1.20:7676/desc.xml",
         st := some "upnp:rootdevice", server := some "Samsung UPnP SDK" },
       { ip := "192.168.1.20", source := ["mdns"],
         name := some "Samsung 7 Series (55)", mdns := some "airplay" }] =
      [{ ip := "192.168.1.20", source := ["mdns"], usn := some "uuid:abc-1",
         location := some "http://192.168.1.20:7676/desc.xml",
         st := some "upnp:rootdevice", server := some "Samsung UPnP SDK",
         name := some "Samsung 7 Series (55)", mdns := some "airplay" }] ∧
    dedupFirst (["ssdp"] ++ ["mdns"]) = ["ssdp", "mdns"] :=
  ⟨rfl, rfl⟩

/-! ## Tizen control path and automatic downgrade
(part_001 lines 1084–1151, 1229–1361) -/

/-- Case-insensitive prefix match of a lower-case pattern `p` against
`s` (the `/i` flag). -/
def ciPrefixAt : List Char → List Char → Bool
  | [], _ => true
  | _ :: _, [] => false
  | pc :: pr, sc :: sr => lowerC sc = pc && ciPrefixAt pr sr

/-- Case-insensitive substring test (`/pattern/i.test(s)` for a literal
pattern given in lower case). -/
def ciContainsS (s p : String) : Bool := scanAny (ciPrefixAt p.data) s.data

/-- Head match of the `ms\\.remote\\.control` alternative of the
`isTizenRemoteUnsupported` regex.  With JavaScript regex-literal
semantics `\\` is a literal backslash and `.` matches any character, so
the pattern is: `ms`, backslash, any, `remote`, backslash, any,
`control` (letters case-insensitive). -/
def msRemotePatAt (s : List Char) : Bool :=
  ciPrefixAt "ms".data s &&
  (match s.drop 2 with
   | '\\' :: _ :: rest2 =>
     ciPrefixAt "remote".data rest2 &&
     (match rest2.drop 6 with
      | '\\' :: _ :: rest3 => ciPrefixAt "control".data rest3
      | _ => false)
   | _ => false)

/-- `isTizenRemoteUnsupported(err)` — part_001 lines 1146–1151
(`/unrecognized method value|ms\\.remote\\.control/i` on
`err.message`; a missing/empty message returns false). -/
def isTizenRemoteUnsupported (msg : String) : Bool :=
  if msg = "" then false
  else ciContainsS msg "unrecognized method value" || scanAny msRemotePatAt msg.data

/-- The decisive event of one Tizen control WebSocket exchange
(`tizenWsRequest`). -/
inductive TizenMsg where
  | deny (event : String)
  | msError (msg : String)
  | connected
  | wsTimeout
  | transportErr (msg : String)
deriving Repr, DecidableEq

/-- `tizenWsRequest(url, payload)` — part_001 lines 1301–1361 — as a
function of the decisive event: deny events and `ms.error` reject with
tagged messages, a connect/ready event lets the payload be sent. -/
def tizenWsRequest : TizenMsg → Except String Unit
  | .deny e => .error ("Tizen WS denied: " ++ e)
  | .msError m => .error ("Tizen error: " ++ jsOr m "Tizen error")
  | .connected => .ok ()
  | .wsTimeout => .error "WebSocket timeout"
  | .transportErr m => .error m

/-- The candidate-URL loop of `tizenSend` (part_001 lines 1248–1261):
first success wins, otherwise the last error (or a default) is
thrown. -/
def tizenSendLoop : Option String → List TizenMsg → Except String Unit
  | last, [] => .error (last.getD "Tizen WS failed")
  | _, o :: rest =>
    match tizenWsRequest o with
    | .ok _ => .ok ()
    | .error e => tizenSendLoop (some e) rest

/-- `tizenSend(device, payload)` with one decisive event per candidate
URL. -/
def tizenSend (outcomes : List TizenMsg) : Except String Unit :=
  tizenSendLoop none outcomes

/-- `tizenSendKey(device, key)` — part_001 lines 1229–1246: an
unsupported-method error is re-thrown as the fixed message
`'Tizen remote unsupported'`. -/
def tizenSendKeyM (outcomes : List TizenMsg) : Except String Unit :=
  match tizenSend outcomes with
  | .ok _ => .ok ()
  | .error e =>
    if isTizenRemoteUnsupported e then .error "Tizen remote unsupported"
    else .error e

/-- Outcomes of the network operations `sendKey` can perform. -/
structure SendKeyEnv where
  tizenOutcomes : List TizenMsg := []
  hjPortOpen : Bool := false
  hjIdentity : Bool := false
  hjSendOutcome : Except String Unit := .ok ()
  legacyOutcome : Except String Unit := .ok ()

/-- `hjSendKey(device, key)` — part_001 lines 1163–1203: fails without
an IP or a stored pairing identity; `hjSendOutcome` abstracts the
connect/send (with its one retry). -/
def hjSendKeyM (d : Device) (env : SendKeyEnv) : Except String Unit :=
  if d.ip = "" then .error "No IP"
  else if env.hjIdentity = false then .error "Not paired (HJ)"
  else env.hjSendOutcome

/-- `legacySendKey(device, key)` — part_001 lines 1153–1161. -/
def legacySendKeyM (d : Device) (env : SendKeyEnv) : Except String Unit :=
  if d.ip = "" then .error "No IP"
  else env.legacyOutcome

/-- What a `sendKey` invocation did: the (possibly downgraded) device,
whether the api switch was persisted via
`updateConfigDeviceFromDiscovery`, which adapter delivered which key,
and the overall result. -/
structure SendKeyOutcome where
  device : Device
  persisted : Bool := false
  delivered : Option (String × String) := none
  result : Except String Unit := .ok ()

/-- `sendKey(device, key)` — part_001 lines 1084–1144, translated
branch by branch. -/
def sendKey (d : Device) (key : String) (env : SendKeyEnv) : SendKeyOutcome :=
  if d.api = "tizen" then
    match tizenSendKeyM env.tizenOutcomes with
    | .ok _ => { device := d, delivered := some ("tizen", key) }
    | .error e =>
      if isTizenRemoteUnsupported e then
        if d.hjAvailable = some true ∨ env.hjPortOpen = true then
          let d' := { d with hjAvailable := some true, api := "hj" }
          match hjSendKeyM d' env with
          | .ok _ =>
            { device := d', persisted := true, delivered := some ("hj", key) }
          | .error e2 =>
            { device := d', persisted := true, result := .error e2 }
        else { device := d, result := .error e }
      else { device := d, result := .error e }
  else if d.api = "hj" then
    match hjSendKeyM d env with
    | .ok _ => { device := d, delivered := some ("hj", key) }
    | .error e => { device := d, result := .error e }
  else if d.api = "legacy" then
    match legacySendKeyM d env with
    | .ok _ => { device := d, delivered := some ("legacy", key) }
    | .error e => { device := d, result := .error e }
  else
    -- unknown: try tizen first, then (only on an HJ downgrade hit) HJ,
    -- otherwise fall back to legacy
    match tizenSendKeyM env.tizenOutcomes with
    | .ok _ => { device := d, delivered := some ("tizen", key) }
    | .error e =>
      if isTizenRemoteUnsupported e ∧ env.hjPortOpen = true then
        let d' := { d with hjAvailable := some true, api := "hj" }
        match hjSendKeyM d' env with
        | .ok _ =>
          { device := d', persisted := true, delivered := some ("hj", key) }
        | .error e2 => { device := d', persisted := true, result := .error e2 }
      else
        match legacySendKeyM d env with
        | .ok _ => { device := d, delivered := some ("legacy", key) }
        | .error e2 => { device := d, result := .error e2 }

/-! ## Claim C1 -/

/-- C1 (code bug): for a Tizen-tagged device whose TV answers every
candidate URL with an `ms.error` of the "unrecognized method" class,
with port 8000 open, a stored HJ identity and an HJ send that would
succeed, `sendKey` still fails with `'Tizen remote unsupported'`:
`tizenSendKey` re-throws the recognized error under that fixed message,
which `isTizenRemoteUnsupported` does not match, so the downgrade
branch in `sendKey` is unreachable — the api stays `"tizen"`, nothing
is persisted and no key is delivered.  The last two conjuncts exhibit
the mismatch: the original message is recognized, the wrapped one is
not. -/
theorem c1_downgrade_unreachable :
    sendKey { id := "abc-1", api := "tizen", ip := "192.168.1.50" } "KEY_VOLUP"
      { tizenOutcomes :=
          [TizenMsg.msError "unrecognized method value : ms.remote.control",
           TizenMsg.msError "unrecognized method value : ms.remote.control",
           TizenMsg.msError "unrecognized method value : ms.remote.control",
           TizenMsg.msError "unrecognized method value : ms.remote.control"],
        hjPortOpen := true, hjIdentity := true, hjSendOutcome := .ok () } =
      { device := { id := "abc-1", api := "tizen", ip := "192.168.1.50" },
        persisted := false, delivered := none,
        result := .error "Tizen remote unsupported" } ∧
    isTizenRemoteUnsupported
      "Tizen error: unrecognized method value : ms.remote.control" = true ∧
    isTizenRemoteUnsupported "Tizen remote unsupported" = false :=
  ⟨rfl, rfl, rfl⟩

/-! ## Tizen pairing (part_001 lines 25, 652–667, 1383–1488) -/

/-- The distinguished "paired but the TV issued no token" sentinel
(part_001 line 25). -/
def NO_TOKEN : String := "__no_token__"

/-- The decisive event of one pairing WebSocket exchange. -/
inductive TizenPairMsg where
  | deny (event : String)
  | connect (token : String)
  | pairTimeout
  | wsError (msg : String)
deriving Repr, DecidableEq

/-- `pairTizenWithUrl(url)` — part_001 lines 1423–1488 — as a function
of the decisive event: a deny event rejects, `ms.channel.connect`
resolves the carried token, or the `NO_TOKEN` sentinel when the payload
carried none (`token = message?.data?.token || ''`). -/
def pairTizenWithUrl : TizenPairMsg → Except String String
  | .deny e => .error ("Tizen WS denied: " ++ e)
  | .connect t => if t = "" then .ok NO_TOKEN else .ok t
  | .pairTimeout => .error "Pairing timeout"
  | .wsError m => .error m

/-- The candidate loop of `pairTizen` (part_001 lines 1388–1420):
`tokenAuth` is the device's `tokenAuthSupport` after
`refreshTizenCapabilities`; a sentinel result on a device known to
require token auth throws `'Token required but not granted by TV'`
**inside** the try, so it becomes `lastError` and the next candidate is
attempted; exhausting all candidates throws the last error. -/
def pairTizenLoop (tokenAuth : Option Bool) :
    Option String → List TizenPairMsg → Except String String
  | last, [] => .error (last.getD "Pairing failed")
  | _, m :: rest =>
    match pairTizenWithUrl m with
    | .ok token =>
      if token = NO_TOKEN ∧ tokenAuth = some true then
        pairTizenLoop tokenAuth (some "Token required but not granted by TV") rest
      else .ok token
    | .error e => pairTizenLoop tokenAuth (some e) rest

/-- `pairTizen(device)` — part_001 lines 1383–1421 — with one decisive
event per candidate URL. -/
def pairTizen (tokenAuth : Option Bool) (msgs : List TizenPairMsg) :
    Except String String :=
  pairTizenLoop tokenAuth none msgs

/-- `isDevicePaired(device)` — part_001 lines 652–667; `tizenTok` is
the raw stored token (`tokens.tizen[device.id] || ''`), `hjIdent`
whether an HJ identity is stored. -/
def isDevicePaired (d : Device) (tizenTok : String) (hjIdent : Bool) : Bool :=
  if d.api = "tizen" then
    if tizenTok = "" then false
    else if tizenTok = NO_TOKEN ∧ d.tokenAuthSupport = some true then false
    else true
  else if d.api = "hj" then hjIdent
  else false

theorem pairTizenLoop_all_no_token (msgs : List TizenPairMsg)
    (hall : ∀ m ∈ msgs, m = TizenPairMsg.connect "") :
    pairTizenLoop (some true)
      (some "Token required but not granted by TV") msgs =
      .error "Token required but not granted by TV" := by
  induction msgs with
  | nil => rfl
  | cons m rest ih =>
    have hm := hall m (by simp)
    subst hm
    simp only [pairTizenLoop, pairTizenWithUrl, if_pos rfl, and_self, if_true]
    exact ih (fun x hx => hall x (by simp [hx]))

/-! ## Claim C5 -/

/-- C5: when a pairing candidate's `ms.channel.connect` event carries
no token — if the device's `tokenAuthSupport` is known `true`, the
attempt fails with `'Token required but not granted by TV'` (every
candidate fails that way, so the whole pairing does); otherwise the
pairing succeeds with the `NO_TOKEN` sentinel, which `isDevicePaired`
counts as paired — unlike an absent token. -/
theorem c5_no_token_pairing :
    (∀ msgs : List TizenPairMsg, msgs ≠ [] →
      (∀ m ∈ msgs, m = TizenPairMsg.connect "") →
      pairTizen (some true) msgs =
        .error "Token required but not granted by TV") ∧
    (∀ (tokenAuth : Option Bool) (rest : List TizenPairMsg),
      tokenAuth ≠ some true →
      pairTizen tokenAuth (TizenPairMsg.connect "" :: rest) = .ok NO_TOKEN) ∧
    (∀ (d : Device) (hjIdent : Bool), d.api = "tizen" →
      d.tokenAuthSupport ≠ some true →
      isDevicePaired d NO_TOKEN hjIdent = true) ∧
    (∀ (d : Device) (hjIdent : Bool), d.api = "tizen" →
      isDevicePaired d "" hjIdent = false) := by
  refine ⟨?_, ?_, ?_, ?_⟩
  · intro msgs hne hall
    cases msgs with
    | nil => exact absurd rfl hne
    | cons m rest =>
      have hm := hall m (by simp)
      subst hm
      simp only [pairTizen, pairTizenLoop, pairTizenWithUrl, if_pos rfl,
        and_self, if_true]
      exact pairTizenLoop_all_no_token rest (fun x hx => hall x (by simp [hx]))
  · intro tokenAuth rest hta
    unfold pairTizen
    show (match pairTizenWithUrl (TizenPairMsg.connect "") with
      | .ok token =>
        if token = NO_TOKEN ∧ tokenAuth = some true then
          pairTizenLoop tokenAuth
            (some "Token required but not granted by TV") rest
        else Except.ok token
      | .error e => pairTizenLoop tokenAuth (some e) rest) = Except.ok NO_TOKEN
    rw [show pairTizenWithUrl (TizenPairMsg.connect "") = .ok NO_TOKEN from rfl]
    dsimp only
    rw [if_neg]
    intro hc
    exact hta hc.2
  · intro d hjIdent hapi hta
    unfold isDevicePaired
    rw [if_pos hapi, if_neg (by exact fun h => absurd h (by decide)),
      if_neg (fun hc => hta hc.2)]
  · intro d hjIdent hapi
    unfold isDevicePaired
    rw [if_pos hapi, if_pos rfl]

/-- Witness for `c5_no_token_pairing` at concrete inputs: two no-token
candidates fail a token-requiring device; a single no-token candidate
pairs a device with unknown `tokenAuthSupport`; the stored sentinel
counts as paired while the empty token does not. -/
theorem c5_no_token_pairing_witness :
    pairTizen (some true)
      [TizenPairMsg.connect "", TizenPairMsg.connect ""] =
      .error "Token required but not granted by TV" ∧
    pairTizen none [TizenPairMsg.connect ""] = .ok NO_TOKEN ∧
    isDevicePaired { id := "abc-1", api := "tizen" } NO_TOKEN false = true ∧
    isDevicePaired { id := "abc-1", api := "tizen" } "" false = false :=
  ⟨c5_no_token_pairing.1 [TizenPairMsg.connect "", TizenPairMsg.connect ""]
      (by decide) (by decide),
    c5_no_token_pairing.2.1 none [] (by decide),
    c5_no_token_pairing.2.2.1 { id := "abc-1", api := "tizen" } false rfl
      (by decide),
    c5_no_token_pairing.2.2.2 { id := "abc-1", api := "tizen" } false rfl⟩

/-! ## Substring occurrence

Generic machinery for reasoning about which strings occur inside the
WebSocket URLs assembled by `buildTizenWsCandidates` (part_001 lines
1263–1291). -/

/-- Does the pattern `p` occur as a contiguous run somewhere in `s`? -/
def occursInL (p : List Char) : List Char → Bool
  | [] => p.isEmpty
  | c :: rest => p.isPrefixOf (c :: rest) || occursInL p rest

/-- An occurrence of `p` in `x ++ y` lies inside `x`, inside `y`, or
straddles the boundary, splitting `p` into a non-empty suffix of `x`
followed by a non-empty prefix of `y`. -/
theorem occursInL_append {p : List Char} :
    ∀ x y : List Char, occursInL p (x ++ y) = true →
      occursInL p x = true ∨ occursInL p y = true ∨
      ∃ p₁ p₂, p = p₁ ++ p₂ ∧ p₁ ≠ [] ∧ p₂ ≠ [] ∧ p₁ <:+ x ∧ p₂ <+: y := by
  intro x
  induction x with
  | nil => intro y h; exact Or.inr (Or.inl h)
  | cons c xs ih =>
    intro y h
    rw [List.cons_append] at h
    rw [show occursInL p (c :: (xs ++ y)) =
          (p.isPrefixOf (c :: (xs ++ y)) || occursInL p (xs ++ y)) from rfl,
        Bool.or_eq_true] at h
    rcases h with hpre | hrest
    · rw [List.isPrefixOf_iff_prefix] at hpre
      rw [show c :: (xs ++ y) = (c :: xs) ++ y from rfl] at hpre
      by_cases hl : p.length ≤ (c :: xs).length
      · left
        have hpx : p <+: c :: xs :=
          List.prefix_of_prefix_length_le hpre (List.prefix_append _ _) hl
        rw [show occursInL p (c :: xs) =
              (p.isPrefixOf (c :: xs) || occursInL p xs) from rfl,
            Bool.or_eq_true]
        exact Or.inl (List.isPrefixOf_iff_prefix.mpr hpx)
      · right; right
        have hxp : (c :: xs) <+: p :=
          List.prefix_of_prefix_length_le (List.prefix_append _ _) hpre
            (Nat.le_of_not_le hl)
        rcases hxp with ⟨p₂, hp₂⟩
        refine ⟨c :: xs, p₂, hp₂.symm, List.cons_ne_nil _ _, ?_, List.suffix_refl _, ?_⟩
        · intro hnil
          rw [hnil, List.append_nil] at hp₂
          exact hl (hp₂ ▸ Nat.le_refl _)
        · rcases hpre with ⟨t, ht⟩
          rw [← hp₂, List.append_assoc] at ht
          exact ⟨t, List.append_cancel_left ht⟩
    · rcases ih y hrest with h1 | h2 | ⟨p₁, p₂, heq, hn1, hn2, hsuf, hpref⟩
      · left
        rw [show occursInL p (c :: xs) =
              (p.isPrefixOf (c :: xs) || occursInL p xs) from rfl, h1,
            Bool.or_true]
      · exact Or.inr (Or.inl h2)
      · exact Or.inr (Or.inr ⟨p₁, p₂, heq, hn1, hn2,
          hsuf.trans (List.suffix_cons c xs), hpref⟩)

/-- If `p` occurs neither in `x` nor in `y`, and the first character of
`y` does not appear in `p` at all, then `p` does not occur in `x ++ y`
(the boundary cannot be straddled). -/
theorem occursInL_append_false {p x y : List Char}
    (hx : occursInL p x = false) (hy : occursInL p y = false)
    (hhead : ∀ c cs, y = c :: cs → c ∉ p) :
    occursInL p (x ++ y) = false := by
  cases hb : occursInL p (x ++ y) with
  | false => rfl
  | true =>
    exfalso
    rcases occursInL_append x y hb with h1 | h2 | ⟨p₁, p₂, heq, _, hn2, _, hpref⟩
    · rw [hx] at h1; exact Bool.false_ne_true h1
    · rw [hy] at h2; exact Bool.false_ne_true h2
    · rcases p₂ with _ | ⟨d, ds⟩
      · exact hn2 rfl
      · rcases hpref with ⟨t, ht⟩
        refine hhead d (ds ++ t) ht.symm ?_
        rw [heq]
        exact List.mem_append_right _ (List.mem_cons_self _ _)

/-- Every character of an occurring pattern is a character of the
string. -/
theorem occursInL_mem {p : List Char} :
    ∀ s : List Char, occursInL p s = true → ∀ c ∈ p, c ∈ s := by
  intro s
  induction s with
  | nil =>
    intro h c hc
    rw [show occursInL p [] = p.isEmpty from rfl, List.isEmpty_iff] at h
    rw [h] at hc
    exact absurd hc (List.not_mem_nil c)
  | cons a rest ih =>
    intro h c hc
    rw [show occursInL p (a :: rest) =
          (p.isPrefixOf (a :: rest) || occursInL p rest) from rfl,
        Bool.or_eq_true] at h
    rcases h with hpre | hrest
    · exact (List.isPrefixOf_iff_prefix.mp hpre).subset hc
    · exact List.mem_cons_of_mem a (ih hrest c hc)

/-- Concatenation of string segments. -/
def joinL : List (List Char) → List Char
  | [] => []
  | s :: rest => s ++ joinL rest

/-- A pattern that occurs in no segment, and whose character set misses
the first character of every segment after the first, does not occur in
the concatenation of the segments. -/
theorem occursInL_joinL_false {p : List Char} (hp : p ≠ []) :
    ∀ segs : List (List Char),
      (∀ s ∈ segs, occursInL p s = false) →
      (∀ s ∈ segs.drop 1, ∃ c cs, s = c :: cs ∧ c ∉ p) →
      occursInL p (joinL segs) = false := by
  intro segs
  induction segs with
  | nil =>
    intro _ _
    rw [show joinL [] = [] from rfl,
        show occursInL p [] = p.isEmpty from rfl]
    exact List.isEmpty_eq_false.mpr hp
  | cons s rest ih =>
    intro hall hheads
    rw [show joinL (s :: rest) = s ++ joinL rest from rfl]
    refine occursInL_append_false (hall s (List.mem_cons_self _ _)) ?_ ?_
    · refine ih (fun u hu => hall u (List.mem_cons_of_mem _ hu)) ?_
      intro u hu
      exact hheads u (show u ∈ rest from List.mem_of_mem_drop hu)
    · intro c cs hcs
      rcases rest with _ | ⟨s₂, rest'⟩
      · exact absurd hcs (by simp [joinL])
      · rcases hheads s₂ (by simp) with ⟨d, ds, hs₂, hd⟩
        rw [show joinL (s₂ :: rest') = s₂ ++ joinL rest' from rfl, hs₂] at hcs
        have : d = c := by
          have := congrArg (fun l => l.head?) hcs
          simpa using this
        rw [← this] at *
        exact hd

/-! ## Tizen token lookup and WebSocket URL candidates
(part_001 lines 179–182 and 1263–1291) -/

/-- `getTizenToken(deviceId)` (part_001 lines 179–182): read the
per-device token from the in-memory store
(`(tokens.tizen && tokens.tizen[deviceId]) || ''`, modelled as an
association-list lookup defaulting to the empty string) and map the
`NO_TOKEN` sentinel to the empty string. -/
def getTizenToken (store : List (String × String)) (deviceId : String) : String :=
  let token := ((store.find? (fun p => p.1 = deviceId)).map (fun p => p.2)).getD ""
  if token = NO_TOKEN then "" else token

/-- `Buffer.from('ioBroker').toString('base64')` computed in
`buildTizenWsCandidates`. -/
def nameBase64 : String := "aW9Ccm9rZXI="

/-- The de-duplication key `` `${protocol}:${port}:${apiVersion}` ``
used by the `added` set in `buildTizenWsCandidates`. -/
def candKey : String × Nat × String → String
  | (protocol, port, apiVersion) =>
    protocol ++ ":" ++ natToDecS port ++ ":" ++ apiVersion

/-- First-occurrence de-duplication of candidate keys, by their rendered
`candKey` string, with the set of already-seen keys made explicit. -/
def dedupByKey (seen : List String) :
    List (String × Nat × String) → List (String × Nat × String)
  | [] => []
  | k :: ks =>
    if seen.contains (candKey k) then dedupByKey seen ks
    else k :: dedupByKey (candKey k :: seen) ks

/-- The URL built by `add(protocol, port, apiVersion)` inside
`buildTizenWsCandidates` (part_001 lines 1268–1279): the base URL, with
`&token=<token>` appended only when the token is truthy (non-empty) and
not the `NO_TOKEN` sentinel. -/
def mkTizenUrl (ip token : String) : String × Nat × String → String
  | (protocol, port, apiVersion) =>
    let url := protocol ++ "://" ++ ip ++ ":" ++ natToDecS port ++ "/api/" ++
      apiVersion ++ "/channels/samsung.remote.control?name=" ++ nameBase64
    if token ≠ "" ∧ token ≠ NO_TOKEN then url ++ "&token=" ++ token else url

/-- The ordered `(protocol, port, apiVersion)` key sequence produced by
the `add` calls of `buildTizenWsCandidates` (part_001 lines 1281–1290):
the device's own protocol/port pair per version when both fields are
truthy, then `wss:8002` and `ws:8001` per version, de-duplicated in
first-occurrence order. -/
def tizenCandKeys (device : Device) (versions : List String) :
    List (String × Nat × String) :=
  dedupByKey []
    ((if device.protocol ≠ "" ∧ device.port ≠ 0 then
        versions.map (fun v => (device.protocol, device.port, v))
      else []) ++
     versions.flatMap (fun v => [("wss", 8002, v), ("ws", 8001, v)]))

/-- `buildTizenWsCandidates(device, token, apiVersions)` (part_001 lines
1263–1291). -/
def buildTizenWsCandidates (device : Device) (token : String)
    (versions : List String) : List String :=
  (tizenCandKeys device versions).map (mkTizenUrl device.ip token)

/-- With an empty token the `&token=` suffix is not appended. -/
theorem mkTizenUrl_empty (ip proto v : String) (port : Nat) :
    mkTizenUrl ip "" (proto, port, v) =
      proto ++ "://" ++ ip ++ ":" ++ natToDecS port ++ "/api/" ++ v ++
        "/channels/samsung.remote.control?name=" ++ nameBase64 := by
  unfold mkTizenUrl
  dsimp only
  rw [if_neg]
  intro h
  exact h.1 rfl

/-- The sentinel token builds the same URL as the empty token. -/
theorem mkTizenUrl_noToken (ip : String) (k : String × Nat × String) :
    mkTizenUrl ip NO_TOKEN k = mkTizenUrl ip "" k := by
  rcases k with ⟨proto, port, v⟩
  unfold mkTizenUrl
  dsimp only
  rw [if_neg (fun h => h.2 rfl), if_neg (fun h => h.1 rfl)]

/-- With a genuine token the URL is the base URL plus the token query
parameter. -/
theorem mkTizenUrl_token (ip token : String) (k : String × Nat × String)
    (h1 : token ≠ "") (h2 : token ≠ NO_TOKEN) :
    mkTizenUrl ip token k = mkTizenUrl ip "" k ++ "&token=" ++ token := by
  rcases k with ⟨proto, port, v⟩
  unfold mkTizenUrl
  dsimp only
  rw [if_pos ⟨h1, h2⟩, if_neg (fun h => h.1 rfl)]

/-- De-duplication only drops elements. -/
theorem dedupByKey_subset :
    ∀ (seen : List String) (l : List (String × Nat × String))
      (k : String × Nat × String), k ∈ dedupByKey seen l → k ∈ l := by
  intro seen l
  induction l generalizing seen with
  | nil => intro k h; exact absurd h (by simp [dedupByKey])
  | cons a as ih =>
    intro k h
    rw [show dedupByKey seen (a :: as) =
          (if seen.contains (candKey a) then dedupByKey seen as
           else a :: dedupByKey (candKey a :: seen) as) from rfl] at h
    by_cases hc : seen.contains (candKey a) = true
    · rw [if_pos hc] at h
      exact List.mem_cons_of_mem a (ih seen k h)
    · rw [if_neg hc] at h
      rcases List.mem_cons.mp h with rfl | hm
      · exact List.mem_cons_self _ _
      · exact List.mem_cons_of_mem a (ih _ k hm)

/-- Shape of every candidate key: the protocol is the device's own,
`wss` or `ws`, and the API version is one of the requested versions. -/
theorem tizenCandKeys_mem (device : Device) (versions : List String)
    (k : String × Nat × String) (h : k ∈ tizenCandKeys device versions) :
    (k.1 = device.protocol ∨ k.1 = "wss" ∨ k.1 = "ws") ∧ k.2.2 ∈ versions := by
  have hin := dedupByKey_subset [] _ k h
  rcases List.mem_append.mp hin with hl | hr
  · by_cases hc : device.protocol ≠ "" ∧ device.port ≠ 0
    · rw [if_pos hc] at hl
      rcases List.mem_map.mp hl with ⟨v, hv, hk⟩
      rw [← hk]
      exact ⟨Or.inl rfl, hv⟩
    · rw [if_neg hc] at hl
      exact absurd hl (List.not_mem_nil k)
  · rcases List.mem_flatMap.mp hr with ⟨v, hv, hk⟩
    rcases List.mem_cons.mp hk with rfl | hk2
    · exact ⟨Or.inr (Or.inl rfl), hv⟩
    · rcases List.mem_cons.mp hk2 with rfl | hk3
      · exact ⟨Or.inr (Or.inr rfl), hv⟩
      · exact absurd hk3 (List.not_mem_nil k)

/-- No digit character appears in the `NO_TOKEN` sentinel. -/
theorem digCh_not_mem_noToken (d : Nat) : digCh d ∉ NO_TOKEN.data := by
  unfold digCh
  split <;> decide

/-- The digit expansion is never empty. -/
theorem natDigsF_ne_nil (fuel n : Nat) : natDigsF fuel n ≠ [] := by
  cases fuel with
  | zero => simp [natDigsF]
  | succ f =>
    rw [show natDigsF (f + 1) n =
          (if n < 10 then [n] else natDigsF f (n / 10) ++ [n % 10]) from rfl]
    split
    · simp
    · simp

/-- The sentinel does not occur in a rendered decimal number. -/
theorem natToDecS_no_noToken (n : Nat) :
    occursInL NO_TOKEN.data (natToDecS n).data = false := by
  cases hb : occursInL NO_TOKEN.data (natToDecS n).data with
  | false => rfl
  | true =>
    exfalso
    have hm := occursInL_mem _ hb '_' (by decide)
    rw [show (natToDecS n).data = (natDigs n).map digCh from rfl] at hm
    rcases List.mem_map.mp hm with ⟨d, _, hd⟩
    exact digCh_not_mem_noToken d (hd ▸ (by decide : '_' ∈ NO_TOKEN.data))

/-- A rendered decimal number starts with a digit, which is not a
sentinel character. -/
theorem natToDecS_head_not_noToken (n : Nat) :
    ∃ c cs, (natToDecS n).data = c :: cs ∧ c ∉ NO_TOKEN.data := by
  rcases hds : natDigs n with _ | ⟨d, ds⟩
  · exact absurd hds (natDigsF_ne_nil n n)
  · refine ⟨digCh d, ds.map digCh, ?_, digCh_not_mem_noToken d⟩
    rw [show (natToDecS n).data = (natDigs n).map digCh from rfl, hds]
    rfl

/-- The character data of a token-less candidate URL, as a list of
segments. -/
theorem mkTizenUrl_base_data (ip proto v : String) (port : Nat) :
    (mkTizenUrl ip "" (proto, port, v)).data =
      joinL [proto.data, "://".data, ip.data, ":".data, (natToDecS port).data,
        "/api/".data, v.data, "/channels/samsung.remote.control?name=".data,
        nameBase64.data] := by
  rw [mkTizenUrl_empty]
  simp [joinL, nameBase64]

/-- If the sentinel occurs in none of the variable URL components, it
does not occur in a token-less candidate URL. -/
theorem mkTizenUrl_base_no_sentinel (ip proto v : String) (port : Nat)
    (hip : occursInL NO_TOKEN.data ip.data = false)
    (hiph : ∃ c cs, ip.data = c :: cs ∧ c ∉ NO_TOKEN.data)
    (hpr : occursInL NO_TOKEN.data proto.data = false)
    (hv : occursInL NO_TOKEN.data v.data = false)
    (hvh : ∃ c cs, v.data = c :: cs ∧ c ∉ NO_TOKEN.data) :
    occursInL NO_TOKEN.data (mkTizenUrl ip "" (proto, port, v)).data = false := by
  rw [mkTizenUrl_base_data]
  refine occursInL_joinL_false (by decide) _ ?_ ?_
  · intro s hs
    simp only [List.mem_cons, List.not_mem_nil, or_false] at hs
    rcases hs with rfl | rfl | rfl | rfl | rfl | rfl | rfl | rfl | rfl
    · exact hpr
    · decide
    · exact hip
    · decide
    · exact natToDecS_no_noToken port
    · decide
    · exact hv
    · decide
    · decide
  · intro s hs
    simp only [List.drop, List.mem_cons, List.not_mem_nil, or_false] at hs
    rcases hs with rfl | rfl | rfl | rfl | rfl | rfl | rfl | rfl
    · exact ⟨':', "//".data, rfl, by decide⟩
    · exact hiph
    · exact ⟨':', [], rfl, by decide⟩
    · exact natToDecS_head_not_noToken port
    · exact ⟨'/', "api/".data, rfl, by decide⟩
    · exact hvh
    · exact ⟨'/', "channels/samsung.remote.control?name=".data, rfl, by decide⟩
    · exact ⟨'a', "W9Ccm9rZXI=".data, rfl, by decide⟩

/-- **C10.** The `NO_TOKEN` sentinel is never transmitted to the TV:
`getTizenToken` never returns the sentinel (it is mapped to the empty
string), building candidates with the sentinel yields exactly the
token-less URLs, a `&token=` query parameter is appended only for a
non-empty non-sentinel token, and no URL generated for the sentinel
embeds the sentinel string, provided the device's own IP, protocol and
the requested API versions do not contain it. -/
theorem c10_sentinel_never_sent :
    (∀ store deviceId, getTizenToken store deviceId ≠ NO_TOKEN) ∧
    (∀ (device : Device) (versions : List String),
      buildTizenWsCandidates device NO_TOKEN versions =
        buildTizenWsCandidates device "" versions) ∧
    (∀ (device : Device) (token : String) (versions : List String),
      token ≠ "" → token ≠ NO_TOKEN →
      buildTizenWsCandidates device token versions =
        (tizenCandKeys device versions).map
          (fun k => mkTizenUrl device.ip "" k ++ "&token=" ++ token)) ∧
    (∀ (device : Device) (versions : List String) (url : String),
      occursInL NO_TOKEN.data device.ip.data = false →
      (∃ c cs, device.ip.data = c :: cs ∧ c ∉ NO_TOKEN.data) →
      occursInL NO_TOKEN.data device.protocol.data = false →
      (∀ v ∈ versions, occursInL NO_TOKEN.data v.data = false ∧
        ∃ c cs, v.data = c :: cs ∧ c ∉ NO_TOKEN.data) →
      url ∈ buildTizenWsCandidates device NO_TOKEN versions →
      occursInL NO_TOKEN.data url.data = false) := by
  refine ⟨?_, ?_, ?_, ?_⟩
  · intro store deviceId
    unfold getTizenToken
    dsimp only
    split
    · decide
    · assumption
  · intro device versions
    unfold buildTizenWsCandidates
    exact List.map_congr_left (fun k _ => mkTizenUrl_noToken device.ip k)
  · intro device token versions h1 h2
    unfold buildTizenWsCandidates
    exact List.map_congr_left (fun k _ => mkTizenUrl_token device.ip token k h1 h2)
  · intro device versions url hip hiph hpr hvs hmem
    unfold buildTizenWsCandidates at hmem
    rcases List.mem_map.mp hmem with ⟨k, hk, hurl⟩
    have hshape := tizenCandKeys_mem device versions k hk
    rcases k with ⟨proto, port, v⟩
    rw [← hurl, mkTizenUrl_noToken]
    rcases hvs v hshape.2 with ⟨hv, hvh⟩
    rcases hshape.1 with hp | hp | hp
    · have hp2 : proto = device.protocol := hp
      exact mkTizenUrl_base_no_sentinel device.ip proto v port hip hiph
        (by rw [hp2]; exact hpr) hv hvh
    · have hp2 : proto = "wss" := hp
      exact mkTizenUrl_base_no_sentinel device.ip proto v port hip hiph
        (by rw [hp2]; decide) hv hvh
    · have hp2 : proto = "ws" := hp
      exact mkTizenUrl_base_no_sentinel device.ip proto v port hip hiph
        (by rw [hp2]; decide) hv hvh

/-- Concrete instantiation of `c10_sentinel_never_sent`. -/
theorem c10_sentinel_never_sent_witness :
    getTizenToken [("dev-1", NO_TOKEN)] "dev-1" ≠ NO_TOKEN ∧
    buildTizenWsCandidates
        { ip := "192.168.1.10", protocol := "wss", port := 8002 } NO_TOKEN
        ["v2", "v3"] =
      buildTizenWsCandidates
        { ip := "192.168.1.10", protocol := "wss", port := 8002 } ""
        ["v2", "v3"] ∧
    buildTizenWsCandidates { ip := "192.168.1.10" } "abc123" ["v2"] =
      (tizenCandKeys { ip := "192.168.1.10" } ["v2"]).map
        (fun k => mkTizenUrl "192.168.1.10" "" k ++ "&token=" ++ "abc123") ∧
    occursInL NO_TOKEN.data
      (mkTizenUrl "192.168.1.10" "" ("wss", 8002, "v2")).data = false :=
  ⟨c10_sentinel_never_sent.1 [("dev-1", NO_TOKEN)] "dev-1",
   c10_sentinel_never_sent.2.1
     { ip := "192.168.1.10", protocol := "wss", port := 8002 } ["v2", "v3"],
   c10_sentinel_never_sent.2.2.1 { ip := "192.168.1.10" } "abc123" ["v2"]
     (by decide) (by decide),
   c10_sentinel_never_sent.2.2.2 { ip := "192.168.1.10" } ["v2"]
     (mkTizenUrl "192.168.1.10" "" ("wss", 8002, "v2"))
     (by decide) ⟨'1', "92.168.1.10".data, rfl, by decide⟩ (by decide)
     (by
       intro v hv
       simp only [List.mem_singleton] at hv
       subst hv
       exact ⟨by decide, ⟨'v', "2".data, rfl, by decide⟩⟩)
     (by decide)⟩

/-! ## Log sanitisation of WebSocket URLs
(`url.replace(/token=[^&]+/i, 'token=***')` — part_001 line 1303 in
`tizenWsRequest`, identical in main.js line 711; every raw-URL log line
of the Tizen paths interpolates the resulting `safeUrl`). -/

/-- At least one non-`&` character at the current position (the `[^&]+`
requirement of the regex). -/
def nonAmpHead : List Char → Bool
  | [] => false
  | d :: _ => d ≠ '&'

/-- `replace(/token=[^&]+/i, 'token=***')` on the character list: scan
for the leftmost position where a case-insensitive `token=` is followed
by at least one non-`&` character, and replace that match (the greedy
`[^&]+` run ends at the next `&` or at the end) by `token=***`. -/
def replTokL : List Char → List Char
  | [] => []
  | c :: rest =>
    if ciPrefixAt "token=".data (c :: rest) && nonAmpHead ((c :: rest).drop 6) then
      "token=***".data ++ ((c :: rest).drop 6).dropWhile (fun x => x ≠ '&')
    else c :: replTokL rest

/-- The `safeUrl` computed before any URL is logged. -/
def tizenSafeLogUrl (url : String) : String := ⟨replTokL url.data⟩

/-- Case-insensitive occurrence of a (lower-case) pattern at any
position of a character list. -/
def ciOccursL (p s : List Char) : Bool := scanAny (ciPrefixAt p) s

/-- Unfolding of `replTokL` at a non-matching position. -/
theorem replTokL_cons_neg {c : Char} {rest : List Char}
    (h : (ciPrefixAt "token=".data (c :: rest) &&
      nonAmpHead ((c :: rest).drop 6)) = false) :
    replTokL (c :: rest) = c :: replTokL rest := by
  simp only [replTokL]
  rw [h]
  rfl

/-- Unfolding of `replTokL` at a matching position. -/
theorem replTokL_cons_pos {c : Char} {rest : List Char}
    (h1 : ciPrefixAt "token=".data (c :: rest) = true)
    (h2 : nonAmpHead ((c :: rest).drop 6) = true) :
    replTokL (c :: rest) =
      "token=***".data ++ ((c :: rest).drop 6).dropWhile (fun x => x ≠ '&') := by
  simp only [replTokL]
  rw [h1, h2]
  rfl

/-- A case-insensitive match of an `&`-free pattern cannot straddle an
`&`: it must lie entirely before it. -/
theorem ciPrefixAt_amp (p : List Char) (hp : ∀ x ∈ p, x ≠ '&') :
    ∀ u w, ciPrefixAt p (u ++ '&' :: w) = true →
      p.length ≤ u.length ∧ ciPrefixAt p u = true := by
  induction p with
  | nil => intro u w _; exact ⟨Nat.zero_le _, rfl⟩
  | cons pc pr ih =>
    intro u w h
    cases u with
    | nil =>
      exfalso
      rw [List.nil_append,
          show ciPrefixAt (pc :: pr) ('&' :: w) =
            (decide (lowerC '&' = pc) && ciPrefixAt pr w) from rfl,
          Bool.and_eq_true, decide_eq_true_eq] at h
      have h1 := h.1
      rw [show lowerC '&' = '&' from rfl] at h1
      exact hp pc (List.mem_cons_self _ _) h1.symm
    | cons uc ur =>
      rw [List.cons_append,
          show ciPrefixAt (pc :: pr) (uc :: (ur ++ '&' :: w)) =
            (decide (lowerC uc = pc) && ciPrefixAt pr (ur ++ '&' :: w)) from rfl,
          Bool.and_eq_true] at h
      rcases h with ⟨h1, h2⟩
      rcases ih (fun x hx => hp x (List.mem_cons_of_mem _ hx)) ur w h2 with ⟨hl, hpre⟩
      refine ⟨Nat.succ_le_succ hl, ?_⟩
      rw [show ciPrefixAt (pc :: pr) (uc :: ur) =
            (decide (lowerC uc = pc) && ciPrefixAt pr ur) from rfl, h1, hpre]
      rfl

/-- Core sanitiser computation: if `token=` does not occur
(case-insensitively) in the base URL, the sanitiser rewrites
`base&token=<run>` to `base&token=***`, for any non-empty `&`-free
run. -/
theorem replTokL_core (c : Char) (t' : List Char) (hc : c ≠ '&')
    (hamp : ∀ x ∈ t', x ≠ '&') :
    ∀ base : List Char, ciOccursL "token=".data base = false →
    replTokL (base ++ '&' :: ("token=".data ++ (c :: t'))) =
      base ++ "&token=***".data := by
  intro base
  induction base with
  | nil =>
    intro _
    rw [List.nil_append,
        replTokL_cons_neg (by rfl),
        show "token=".data ++ (c :: t') = 't' :: ("oken=".data ++ (c :: t')) from rfl,
        replTokL_cons_pos (by rfl)
          (by show nonAmpHead (c :: t') = true; simp [nonAmpHead, hc]),
        show (('t' :: ("oken=".data ++ (c :: t'))).drop 6) = c :: t' from rfl]
    rw [List.dropWhile_eq_nil_iff.mpr ?_, List.append_nil]
    · rfl
    · intro x hx
      rcases List.mem_cons.mp hx with rfl | hx2
      · exact decide_eq_true hc
      · exact decide_eq_true (hamp x hx2)
  | cons b bs ih =>
    intro hocc
    rw [show ciOccursL "token=".data (b :: bs) =
          (ciPrefixAt "token=".data (b :: bs) || ciOccursL "token=".data bs)
          from rfl, Bool.or_eq_false_iff] at hocc
    rw [List.cons_append]
    rw [replTokL_cons_neg ?_]
    · rw [ih hocc.2, List.cons_append]
    · cases hb : ciPrefixAt "token=".data
        (b :: (bs ++ '&' :: ("token=".data ++ (c :: t')))) with
      | false => rw [Bool.false_and]
      | true =>
        exfalso
        rw [← List.cons_append] at hb
        have := (ciPrefixAt_amp "token=".data (by decide) (b :: bs) _ hb).2
        rw [hocc.1] at this
        exact Bool.false_ne_true this

/-- `replTokL_core`, at the level of strings. -/
theorem tizenSafeLogUrl_append (base token : String)
    (hocc : ciOccursL "token=".data base.data = false)
    (ht : token ≠ "") (hamp : ∀ x ∈ token.data, x ≠ '&') :
    tizenSafeLogUrl (base ++ "&token=" ++ token) = base ++ "&token=***" := by
  rcases hd : token.data with _ | ⟨c, t'⟩
  · exact absurd (show token = "" from by
      cases token with
      | mk d => cases hd; rfl) ht
  · have hc : c ≠ '&' := hamp c (by rw [hd]; exact List.mem_cons_self _ _)
    have hamp' : ∀ x ∈ t', x ≠ '&' := fun x hx =>
      hamp x (by rw [hd]; exact List.mem_cons_of_mem _ hx)
    show String.mk (replTokL (base ++ "&token=" ++ token).data) = _
    have hdata : (base ++ "&token=" ++ token).data =
        base.data ++ '&' :: ("token=".data ++ (c :: t')) := by
      rw [String.data_append, String.data_append, hd, List.append_assoc]
      rfl
    rw [hdata, replTokL_core c t' hc hamp' base.data hocc]
    rfl

/-- **C9.** Token redaction in logged URLs: for every candidate URL the
Tizen control path can build, the `safeUrl` computed before logging
replaces the token query parameter by the literal `token=***` — the
sanitised log line is exactly the token-less base URL plus `&token=***`,
independent of the stored token — and the token value does not occur in
the sanitised URL.  (Hypotheses: the token is non-empty, not the
sentinel, contains no `&`, is not a substring of the base URL or of the
replacement literal, and the base URLs contain no `token=` of their
own.) -/
theorem c9_log_token_redacted :
    (∀ (device : Device) (token : String) (versions : List String),
      token ≠ "" → token ≠ NO_TOKEN →
      (∀ x ∈ token.data, x ≠ '&') →
      (∀ k ∈ tizenCandKeys device versions,
        ciOccursL "token=".data (mkTizenUrl device.ip "" k).data = false) →
      (buildTizenWsCandidates device token versions).map tizenSafeLogUrl =
        (buildTizenWsCandidates device "" versions).map
          (fun b => b ++ "&token=***")) ∧
    (∀ (device : Device) (token : String) (versions : List String),
      token ≠ "" → token ≠ NO_TOKEN →
      (∀ x ∈ token.data, x ≠ '&') →
      (∀ k ∈ tizenCandKeys device versions,
        ciOccursL "token=".data (mkTizenUrl device.ip "" k).data = false) →
      (∀ k ∈ tizenCandKeys device versions,
        occursInL token.data (mkTizenUrl device.ip "" k).data = false) →
      occursInL token.data "&token=***".data = false →
      ∀ url ∈ buildTizenWsCandidates device token versions,
        occursInL token.data (tizenSafeLogUrl url).data = false) := by
  constructor
  · intro device token versions h1 h2 hamp hocc
    unfold buildTizenWsCandidates
    rw [List.map_map, List.map_map]
    refine List.map_congr_left ?_
    intro k hk
    show tizenSafeLogUrl (mkTizenUrl device.ip token k) =
      mkTizenUrl device.ip "" k ++ "&token=***"
    rw [mkTizenUrl_token device.ip token k h1 h2]
    exact tizenSafeLogUrl_append (mkTizenUrl device.ip "" k) token
      (hocc k hk) h1 hamp
  · intro device token versions h1 h2 hamp hocc hbase hlit url hmem
    unfold buildTizenWsCandidates at hmem
    rcases List.mem_map.mp hmem with ⟨k, hk, hurl⟩
    rw [← hurl, mkTizenUrl_token device.ip token k h1 h2,
        tizenSafeLogUrl_append (mkTizenUrl device.ip "" k) token
          (hocc k hk) h1 hamp,
        String.data_append]
    refine occursInL_append_false (hbase k hk) hlit ?_
    intro c cs hcs c_mem
    have : c = '&' := by
      have := congrArg (fun l => l.head?) hcs
      simp at this
      exact this.symm
    rw [this] at c_mem
    exact hamp '&' c_mem rfl

/-- Concrete instantiation of `c9_log_token_redacted`. -/
theorem c9_log_token_redacted_witness :
    (buildTizenWsCandidates { ip := "192.168.1.10" } "secret99" ["v2"]).map
        tizenSafeLogUrl =
      (buildTizenWsCandidates { ip := "192.168.1.10" } "" ["v2"]).map
        (fun b => b ++ "&token=***") ∧
    occursInL "secret99".data
      (tizenSafeLogUrl
        (mkTizenUrl "192.168.1.10" "secret99" ("wss", 8002, "v2"))).data =
      false :=
  ⟨c9_log_token_redacted.1 { ip := "192.168.1.10" } "secret99" ["v2"]
     (by decide) (by decide) (by decide) (by decide),
   c9_log_token_redacted.2 { ip := "192.168.1.10" } "secret99" ["v2"]
     (by decide) (by decide) (by decide) (by decide) (by decide) (by decide)
     (mkTizenUrl "192.168.1.10" "secret99" ("wss", 8002, "v2")) (by decide)⟩

/-! ## Volume/mute reconciliation — `resolveAudioStates`
(admin/index_m.js lines 1249–1343)

The mutable `device` record is passed and returned explicitly; JS
`typeof x === 'number'` / `'boolean'` tri-states become `Option` fields
(`none` = absent/di of the wrong type).  The function body splits at the
source's own seam — the volume half (lines 1253–1294) runs first and
only then the mute half (lines 1296–1342) — with the JS statement order
inside each half preserved. -/

structure AudioDevice where
  api : String := "unknown"
  lastKnownVolume : Option Int := none
  lastKnownMuted : Option Bool := none
  volumeTelemetryReliable : Option Bool := none
  mutedTelemetryReliable : Option Bool := none
  expectedVolume : Option Int := none
  expectedVolumeUntil : Option Int := none
  expectedMuted : Option Bool := none
  expectedMutedUntil : Option Int := none
  mutedShadowUntil : Option Int := none
deriving Repr, DecidableEq

structure AudioStatus where
  volume : Option Int := none
  muted : Option Bool := none
  volumeSource : String := ""
  mutedSource : String := ""
deriving Repr, DecidableEq

/-- Lines 1257–1260: expiry of the expected-volume window
(`if (typeof device.expectedVolumeUntil === 'number' && now >= ...)
delete ...`). -/
def expireVolumeWindow (device : AudioDevice) (now : Int) : AudioDevice :=
  match device.expectedVolumeUntil with
  | some u =>
    if now ≥ u then
      { device with expectedVolume := none, expectedVolumeUntil := none }
    else device
  | none => device

/-- Lines 1262–1278: the two `volumeTelemetryReliable` updates for a
UPnP volume reading — the expected-window comparison, then the
non-zero-reading promotion. -/
def updateVolumeReliability (device : AudioDevice) (volumeSource : String)
    (volume : Option Int) (now : Int) : AudioDevice :=
  if volumeSource = "upnp" then
    match volume with
    | some v =>
      let da :=
        match device.expectedVolume, device.expectedVolumeUntil with
        | some ev, some u =>
          if now < u then
            (if v = ev then { device with volumeTelemetryReliable := some true }
             else { device with volumeTelemetryReliable := some false })
          else device
        | _, _ => device
      if v > 0 then { da with volumeTelemetryReliable := some true } else da
    | none => device
  else device

/-- The volume half of `resolveAudioStates` (lines 1253–1294): window
expiry, the reliability updates, the `if`/`else if` reconciliation, and
the `lastKnownVolume` write-back.  Returns the updated device and the
reconciled volume. -/
def resolveVolume (device : AudioDevice) (status : AudioStatus) (now : Int) :
    AudioDevice × Option Int :=
  let previousVolume := device.lastKnownVolume
  let volume := status.volume
  let d1 := expireVolumeWindow device now
  let d2 := updateVolumeReliability d1 status.volumeSource volume now
  let volume1 :=
    if status.volumeSource = "upnp" ∧ d2.volumeTelemetryReliable = some false then
      previousVolume
    else if status.volumeSource = "upnp" ∧ device.api = "tizen" ∧
        d2.volumeTelemetryReliable ≠ some true then
      (if volume = some 0 then previousVolume else volume)
    else volume
  let d3 :=
    match volume1 with
    | some _ => { d2 with lastKnownVolume := volume1 }
    | none => d2
  (d3, volume1)

/-- Lines 1296–1299: expiry of the expected-mute window. -/
def expireMutedWindow (device : AudioDevice) (now : Int) : AudioDevice :=
  match device.expectedMutedUntil with
  | some u =>
    if now ≥ u then
      { device with expectedMuted := none, expectedMutedUntil := none }
    else device
  | none => device

/-- Lines 1301–1317: the two `mutedTelemetryReliable` updates for a UPnP
mute reading — the expected-window comparison, then the `muted === true`
promotion. -/
def updateMutedReliability (device : AudioDevice) (mutedSource : String)
    (muted : Option Bool) (now : Int) : AudioDevice :=
  if mutedSource = "upnp" then
    match muted with
    | some m =>
      let da :=
        match device.expectedMuted, device.expectedMutedUntil with
        | some em, some u =>
          if now < u then
            (if m = em then { device with mutedTelemetryReliable := some true }
             else { device with mutedTelemetryReliable := some false })
          else device
        | _, _ => device
      if m = true then { da with mutedTelemetryReliable := some true } else da
    | none => device
  else device

/-- The mute half of `resolveAudioStates` (lines 1296–1342): window
expiry, the reliability updates, the two separate reconciliation `if`s,
the shadow-hold, and the `lastKnownMuted` write-back. -/
def resolveMuted (device : AudioDevice) (status : AudioStatus) (now : Int) :
    AudioDevice × Option Bool :=
  let muted := status.muted
  let d4 := expireMutedWindow device now
  let d5 := updateMutedReliability d4 status.mutedSource muted now
  let muted1 :=
    if status.mutedSource = "upnp" ∧ d5.mutedTelemetryReliable = some false then
      device.lastKnownMuted
    else muted
  let muted2 :=
    if status.mutedSource = "upnp" ∧ device.api = "tizen" ∧
        d5.mutedTelemetryReliable ≠ some true ∧ muted1 = some false then
      device.lastKnownMuted
    else muted1
  let muted3 :=
    if status.mutedSource = "upnp" ∧ muted2 = some false ∧
        device.lastKnownMuted = some true ∧ now < device.mutedShadowUntil.getD 0 then
      some true
    else muted2
  let d6 :=
    match muted3 with
    | some _ => { d5 with lastKnownMuted := muted3 }
    | none => d5
  (d6, muted3)

/-- `resolveAudioStates(device, status)` (lines 1249–1343), with `now`
(`Date.now()`) passed explicitly: run the volume half, then the mute
half on the updated device; return the final device and the
`{ volume, muted }` result. -/
def resolveAudioStates (device : AudioDevice) (status : AudioStatus)
    (now : Int) : AudioDevice × Option Int × Option Bool :=
  let r1 := resolveVolume device status now
  let r2 := resolveMuted r1.1 status now
  (r2.1, r1.2, r2.2)

/-- Window expiry touches only the two expected-volume fields. -/
theorem expireVolumeWindow_fields (d : AudioDevice) (now : Int) :
    (expireVolumeWindow d now).api = d.api ∧
    (expireVolumeWindow d now).lastKnownVolume = d.lastKnownVolume ∧
    (expireVolumeWindow d now).volumeTelemetryReliable = d.volumeTelemetryReliable := by
  unfold expireVolumeWindow
  refine ⟨?_, ?_, ?_⟩ <;> (repeat' split) <;> rfl

/-- Window expiry cannot introduce an expected volume. -/
theorem expireVolumeWindow_ev_none (d : AudioDevice) (now : Int)
    (h : d.expectedVolume = none) :
    (expireVolumeWindow d now).expectedVolume = none := by
  unfold expireVolumeWindow
  (repeat' split) <;> first | rfl | exact h

/-- With no expected-volume window, a UPnP zero reading leaves the
device unchanged (the non-zero promotion does not fire). -/
theorem updateVolumeReliability_zero (d : AudioDevice) (now : Int)
    (h : d.expectedVolume = none) :
    updateVolumeReliability d "upnp" (some 0) now = d := by
  unfold updateVolumeReliability
  rw [if_pos rfl]
  dsimp only
  rw [h]
  dsimp only
  rw [if_neg (by decide)]

/-- With no expected-volume window, a UPnP non-zero reading marks the
telemetry reliable. -/
theorem updateVolumeReliability_pos (d : AudioDevice) (v : Int) (now : Int)
    (h : d.expectedVolume = none) (hv : 0 < v) :
    updateVolumeReliability d "upnp" (some v) now =
      { d with volumeTelemetryReliable := some true } := by
  unfold updateVolumeReliability
  rw [if_pos rfl]
  dsimp only
  rw [h]
  dsimp only
  rw [if_pos hv, h]

/-- Mute-window expiry touches only the two expected-mute fields. -/
theorem expireMutedWindow_fields (d : AudioDevice) (now : Int) :
    (expireMutedWindow d now).lastKnownVolume = d.lastKnownVolume ∧
    (expireMutedWindow d now).volumeTelemetryReliable = d.volumeTelemetryReliable := by
  unfold expireMutedWindow
  refine ⟨?_, ?_⟩ <;> (repeat' split) <;> rfl

/-- The mute-reliability update touches only `mutedTelemetryReliable`. -/
theorem updateMutedReliability_fields (d : AudioDevice) (src : String)
    (m : Option Bool) (now : Int) :
    (updateMutedReliability d src m now).lastKnownVolume = d.lastKnownVolume ∧
    (updateMutedReliability d src m now).volumeTelemetryReliable =
      d.volumeTelemetryReliable := by
  unfold updateMutedReliability
  refine ⟨?_, ?_⟩ <;> (repeat' split) <;> rfl

/-- The mute half never touches the volume-related fields. -/
theorem resolveMuted_preserves (d : AudioDevice) (st : AudioStatus) (now : Int) :
    (resolveMuted d st now).1.lastKnownVolume = d.lastKnownVolume ∧
    (resolveMuted d st now).1.volumeTelemetryReliable = d.volumeTelemetryReliable := by
  unfold resolveMuted
  dsimp only
  constructor <;>
    (split <;>
      first
      | (show (updateMutedReliability (expireMutedWindow d now) st.mutedSource
            st.muted now).lastKnownVolume = d.lastKnownVolume
         rw [(updateMutedReliability_fields _ _ _ _).1,
             (expireMutedWindow_fields d now).1])
      | (show (updateMutedReliability (expireMutedWindow d now) st.mutedSource
            st.muted now).volumeTelemetryReliable = d.volumeTelemetryReliable
         rw [(updateMutedReliability_fields _ _ _ _).2,
             (expireMutedWindow_fields d now).2]))

/-- On a Tizen device with unproven telemetry, no expected-volume
window, and a known previous volume, a UPnP zero reading is rejected in
favour of the previous volume. -/
theorem resolveVolume_tizen_zero (d : AudioDevice) (st : AudioStatus)
    (now : Int) (p : Int) (htz : d.api = "tizen")
    (hrel : d.volumeTelemetryReliable = none) (hev : d.expectedVolume = none)
    (hlk : d.lastKnownVolume = some p) (hsrc : st.volumeSource = "upnp")
    (hvol : st.volume = some 0) :
    (resolveVolume d st now).2 = some p ∧
    (resolveVolume d st now).1.lastKnownVolume = some p ∧
    (resolveVolume d st now).1.volumeTelemetryReliable = none := by
  unfold resolveVolume
  dsimp only
  rw [hsrc, hvol, htz, hlk,
      updateVolumeReliability_zero (expireVolumeWindow d now) now
        (expireVolumeWindow_ev_none d now hev),
      (expireVolumeWindow_fields d now).2.2, hrel,
      if_neg (by simp), if_pos ⟨rfl, rfl, by simp⟩, if_pos rfl]
  dsimp only
  exact ⟨rfl, rfl, rfl⟩

/-- With no expected-volume window, a UPnP non-zero reading is accepted
and marks the telemetry reliable. -/
theorem resolveVolume_pos (d : AudioDevice) (st : AudioStatus)
    (now : Int) (v : Int) (hev : d.expectedVolume = none)
    (hsrc : st.volumeSource = "upnp") (hvol : st.volume = some v)
    (hpos : 0 < v) :
    (resolveVolume d st now).2 = some v ∧
    (resolveVolume d st now).1.volumeTelemetryReliable = some true := by
  unfold resolveVolume
  dsimp only
  rw [hsrc, hvol,
      updateVolumeReliability_pos (expireVolumeWindow d now) v now
        (expireVolumeWindow_ev_none d now hev) hpos]
  dsimp only
  rw [if_neg (by simp), if_neg (by simp)]
  exact ⟨rfl, rfl⟩

/-- Once the telemetry is marked reliable, a UPnP zero reading is
accepted. -/
theorem resolveVolume_reliable_zero (d : AudioDevice) (st : AudioStatus)
    (now : Int) (hrel : d.volumeTelemetryReliable = some true)
    (hev : d.expectedVolume = none) (hsrc : st.volumeSource = "upnp")
    (hvol : st.volume = some 0) :
    (resolveVolume d st now).2 = some 0 := by
  unfold resolveVolume
  dsimp only
  rw [hsrc, hvol,
      updateVolumeReliability_zero (expireVolumeWindow d now) now
        (expireVolumeWindow_ev_none d now hev),
      (expireVolumeWindow_fields d now).2.2, hrel,
      if_neg (by simp), if_neg (by simp)]

/-- **C7 counterexample.** The claim quantifies over every device, but
the zero-rejection guard additionally requires `device.api === 'tizen'`:
an H/J device with unset `volumeTelemetryReliable` and last known volume
40 accepts a UPnP zero reading — the reconciled volume is 0, not 40, and
the stored last-known volume is overwritten with 0. -/
theorem c7_counterexample :
    (resolveAudioStates { api := "hj", lastKnownVolume := some 40 }
      { volume := some 0, volumeSource := "upnp" } 0).2.1 = some 0 ∧
    (resolveAudioStates { api := "hj", lastKnownVolume := some 40 }
      { volume := some 0, volumeSource := "upnp" } 0).1.lastKnownVolume =
      some 0 := by
  exact ⟨rfl, rfl⟩

/-- **C7 (amended).** On a *Tizen* device (`device.api === 'tizen'`)
whose `volumeTelemetryReliable` flag is unset and with no active
expected-volume window, a UPnP zero reading is rejected in favour of the
last known volume; a non-zero UPnP reading is accepted and marks the
telemetry reliable; and once the flag is true a zero reading is
accepted. -/
theorem c7_zero_volume_guard :
    (∀ (d : AudioDevice) (st : AudioStatus) (now : Int) (p : Int),
      d.api = "tizen" → d.volumeTelemetryReliable = none →
      d.expectedVolume = none → d.lastKnownVolume = some p →
      st.volumeSource = "upnp" → st.volume = some 0 →
      (resolveAudioStates d st now).2.1 = some p ∧
      (resolveAudioStates d st now).1.lastKnownVolume = some p) ∧
    (∀ (d : AudioDevice) (st : AudioStatus) (now : Int) (v : Int),
      d.expectedVolume = none →
      st.volumeSource = "upnp" → st.volume = some v → 0 < v →
      (resolveAudioStates d st now).2.1 = some v ∧
      (resolveAudioStates d st now).1.volumeTelemetryReliable = some true) ∧
    (∀ (d : AudioDevice) (st : AudioStatus) (now : Int),
      d.volumeTelemetryReliable = some true → d.expectedVolume = none →
      st.volumeSource = "upnp" → st.volume = some 0 →
      (resolveAudioStates d st now).2.1 = some 0) := by
  refine ⟨?_, ?_, ?_⟩
  · intro d st now p htz hrel hev hlk hsrc hvol
    have hv := resolveVolume_tizen_zero d st now p htz hrel hev hlk hsrc hvol
    refine ⟨hv.1, ?_⟩
    show (resolveMuted (resolveVolume d st now).1 st now).1.lastKnownVolume =
      some p
    rw [(resolveMuted_preserves _ st now).1]
    exact hv.2.1
  · intro d st now v hev hsrc hvol hpos
    have hv := resolveVolume_pos d st now v hev hsrc hvol hpos
    refine ⟨hv.1, ?_⟩
    show (resolveMuted (resolveVolume d st now).1 st
        now).1.volumeTelemetryReliable = some true
    rw [(resolveMuted_preserves _ st now).2]
    exact hv.2
  · intro d st now hrel hev hsrc hvol
    exact resolveVolume_reliable_zero d st now hrel hev hsrc hvol

/-- Concrete instantiation of `c7_zero_volume_guard`. -/
theorem c7_zero_volume_guard_witness :
    (resolveAudioStates { api := "tizen", lastKnownVolume := some 40 }
      { volume := some 0, volumeSource := "upnp" } 0).2.1 = some 40 ∧
    (resolveAudioStates { api := "tizen" }
      { volume := some 25, volumeSource := "upnp" } 0).2.1 = some 25 ∧
    (resolveAudioStates { api := "tizen" }
      { volume := some 25, volumeSource := "upnp" }
        0).1.volumeTelemetryReliable = some true ∧
    (resolveAudioStates { api := "tizen", volumeTelemetryReliable := some true }
      { volume := some 0, volumeSource := "upnp" } 0).2.1 = some 0 :=
  ⟨(c7_zero_volume_guard.1 { api := "tizen", lastKnownVolume := some 40 }
      { volume := some 0, volumeSource := "upnp" } 0 40
      rfl rfl rfl rfl rfl rfl).1,
   (c7_zero_volume_guard.2.1 { api := "tizen" }
      { volume := some 25, volumeSource := "upnp" } 0 25
      rfl rfl rfl (by decide)).1,
   (c7_zero_volume_guard.2.1 { api := "tizen" }
      { volume := some 25, volumeSource := "upnp" } 0 25
      rfl rfl rfl (by decide)).2,
   c7_zero_volume_guard.2.2 { api := "tizen", volumeTelemetryReliable := some true }
      { volume := some 0, volumeSource := "upnp" } 0 rfl rfl rfl rfl⟩

end SamsungTv
